import Mathlib

/-!
# Verification of the jan-server research-loop controllers

A shallow embedding of the research-loop code of `menloresearch/jan-server`
(`server/skills/deep_research`, `server/skills/research`, `server/routes/mcp.py`)
together with proofs of the behavioural properties stated in the
natural-language specification.

Conventions of the embedding:
* Python strings are Lean `String` (sequences of Unicode scalar values);
  byte frames produced by `.encode("utf-8")` are likewise modelled as the
  `String` they encode.
* JSON values produced by `json.loads` are modelled by the inductive `PyVal`
  (floats do not occur in any behaviour under verification and are omitted).
* Fallible calls to external collaborators (the LLM gateway, the Serper
  search client, the MCP bridge) are abstracted into environment records
  whose fields return `Except String` values: `Except.error msg` models the
  call raising a Python exception whose `str()` is `msg`.
* Generator functions (`yield`-based streaming) are modelled as functions
  from an environment to the list of events they yield, in order.
-/

namespace JanServer

/-! ## Python `json.dumps` string escaping (`ensure_ascii=True`, the default)

`server/skills/deep_research/utils.py` and `core.py` serialise every SSE
payload with `json.dumps`, whose default string escaper emits `\"`, `\\`,
`\n`, `\r`, `\t`, `\b`, `\f`, keeps the other printable ASCII characters
verbatim, and escapes every remaining character as `\uXXXX` (one sequence
for code points below 0x10000, a surrogate pair above). -/

/-- Lower-case hexadecimal digit for `n < 16`. -/
def hexDigitChar (n : Nat) : Char :=
  if n < 10 then Char.ofNat (48 + n) else Char.ofNat (87 + n)

/-- The four hex digits of `n < 0x10000`, as printed by Python's `\u%04x`. -/
def hex4 (n : Nat) : List Char :=
  [hexDigitChar (n / 4096 % 16), hexDigitChar (n / 256 % 16),
   hexDigitChar (n / 16 % 16), hexDigitChar (n % 16)]

/-- Escape of a single character, following CPython's
`json.encoder.py_encode_basestring_ascii`. -/
def escapeChar (c : Char) : List Char :=
  if c = '"' then ['\\', '"']
  else if c = '\\' then ['\\', '\\']
  else if c = '\n' then ['\\', 'n']
  else if c = '\r' then ['\\', 'r']
  else if c = '\t' then ['\\', 't']
  else if c.toNat = 8 then ['\\', 'b']
  else if c.toNat = 12 then ['\\', 'f']
  else if 32 ≤ c.toNat ∧ c.toNat ≤ 126 then [c]
  else if c.toNat < 65536 then '\\' :: 'u' :: hex4 c.toNat
  else '\\' :: 'u' :: hex4 (55296 + (c.toNat - 65536) / 1024) ++
       '\\' :: 'u' :: hex4 (56320 + (c.toNat - 65536) % 1024)

/-- JSON-escape a whole character list. -/
def escList (l : List Char) : List Char := l.flatMap escapeChar

/-- JSON-escape a string (the body that `json.dumps` puts between quotes). -/
def pyEscape (s : String) : String := (escList s.data).asString

/-! ### Decoding (the inverse direction used to state losslessness) -/

/-- Value of one hexadecimal digit. -/
def hexVal (c : Char) : Option Nat :=
  if 48 ≤ c.toNat ∧ c.toNat ≤ 57 then some (c.toNat - 48)
  else if 97 ≤ c.toNat ∧ c.toNat ≤ 102 then some (c.toNat - 87)
  else if 65 ≤ c.toNat ∧ c.toNat ≤ 70 then some (c.toNat - 55)
  else none

/-- Read four hex digits, returning their value and the remaining input. -/
def readHex4 : List Char → Option (Nat × List Char)
  | a :: b :: c :: d :: rest =>
    match hexVal a, hexVal b, hexVal c, hexVal d with
    | some va, some vb, some vc, some vd =>
      some (va * 4096 + vb * 256 + vc * 16 + vd, rest)
    | _, _, _, _ => none
  | _ => none

/-- Parse one (possibly escaped) character from a JSON string body. -/
def unescStep : List Char → Option (Char × List Char)
  | [] => none
  | c :: rest =>
    if c = '\\' then
      match rest with
      | [] => none
      | e :: rest2 =>
        if e = 'u' then
          match readHex4 rest2 with
          | none => none
          | some (n, rest3) =>
            if 55296 ≤ n ∧ n < 56320 then
              match rest3 with
              | a :: b :: rest4 =>
                if a = '\\' ∧ b = 'u' then
                  match readHex4 rest4 with
                  | some (m, rest5) =>
                    if 56320 ≤ m ∧ m < 57344 then
                      some (Char.ofNat (65536 + (n - 55296) * 1024 + (m - 56320)), rest5)
                    else none
                  | none => none
                else none
              | _ => none
            else if n < 55296 ∨ 57344 ≤ n then some (Char.ofNat n, rest3)
            else none
        else if e = '"' then some ('"', rest2)
        else if e = '\\' then some ('\\', rest2)
        else if e = '/' then some ('/', rest2)
        else if e = 'n' then some ('\n', rest2)
        else if e = 'r' then some ('\r', rest2)
        else if e = 't' then some ('\t', rest2)
        else if e = 'b' then some (Char.ofNat 8, rest2)
        else if e = 'f' then some (Char.ofNat 12, rest2)
        else none
    else some (c, rest)

/-- Unescape a JSON string body (fuelled; `fuel ≥ length` always suffices). -/
def unescapeAux : Nat → List Char → Option (List Char)
  | _, [] => some []
  | 0, _ :: _ => none
  | fuel + 1, c :: rest =>
    match unescStep (c :: rest) with
    | none => none
    | some (ch, r) => (unescapeAux fuel r).map (ch :: ·)

/-- Unescape a JSON string body. -/
def unescape (l : List Char) : Option (List Char) := unescapeAux l.length l

/-- Scan the body of a JSON string up to its (unescaped) closing quote,
returning the raw escaped body and the input after the quote. -/
def takeJsonString : List Char → Option (List Char × List Char)
  | [] => none
  | c :: rest =>
    if c = '"' then some ([], rest)
    else if c = '\\' then
      match rest with
      | [] => none
      | e :: rest2 => (takeJsonString rest2).map (fun p => (c :: e :: p.1, p.2))
    else (takeJsonString rest).map (fun p => (c :: p.1, p.2))

/-- Strip an expected literal from the front of the input. -/
def chomp : List Char → List Char → Option (List Char)
  | [], s => some s
  | _ :: _, [] => none
  | l :: ls, c :: cs => if c = l then chomp ls cs else none

/-! ## The SSE encoder

`create_sse_message` (`server/skills/deep_research/utils.py`, lines 19-32) and
`create_finalise_message` (`server/skills/deep_research/core.py`, lines
101-114) both frame a content string as
`data: {json.dumps(stream)}\n\n` where `stream` is the dump of a
`ChatCompletionStreamResponse` with a single choice at index 0 whose delta
carries the content, and `model="test"`. -/

/-- Modelled from the spec: the class `ChatCompletionStreamResponse` (imported
from a protocol module that is not part of the repository sources) dumps, per
spec §4.4, to the single JSON object
`{"choices":[{"index":0,"delta":{"content": <text>}}], "model": <name>}`;
`json.dumps` of that object with the model name `"test"` yields this text
before the content string. -/
def sseFramePre : String :=
  "data: \x7b\"choices\": [\x7b\"index\": 0, \"delta\": \x7b\"content\": \""

/-- Modelled from the spec (see `sseFramePre`): the serialized frame text
following the JSON-escaped content string. -/
def sseFrameSufAfterQuote : String := "\x7d\x7d], \"model\": \"test\"\x7d\n\n"

/-- The SSE frame for a content string: `data: {json.dumps(stream)}\n\n`. -/
def sseFrame (content : String) : String :=
  sseFramePre ++ pyEscape content ++ "\"" ++ sseFrameSufAfterQuote

/-- `json.dumps` of a plain string (quotes around the escaped body). -/
def jsonStrLit (s : String) : String := "\"" ++ pyEscape s ++ "\""

namespace DeepResearchUtils

/-- `create_sse_message` of `server/skills/deep_research/utils.py`. -/
def create_sse_message (content : String) : String := sseFrame content

end DeepResearchUtils

namespace DeepResearchCore

/-- `create_finalise_message` of `server/skills/deep_research/core.py`
(lines 101-114): frames a finalize content fragment. -/
def create_finalise_message (content : String) : String := sseFrame content

/-- The `content` argument of the two-argument `create_sse_message` of
`server/skills/deep_research/core.py` is a Python string except at the
`"results"` call site (line 43), where the list `query.query` is passed. -/
inductive SseContent where
  | str (s : String)
  | strList (l : List String)
deriving DecidableEq

/-- `json.dumps` of an `SseContent` value. -/
def dumpSseContent : SseContent → String
  | .str s => jsonStrLit s
  | .strList l => "[" ++ String.intercalate ", " (l.map jsonStrLit) ++ "]"

/-- `create_sse_message(message_type, content)` of
`server/skills/deep_research/core.py` (lines 117-133): serialises
`{"message": message_type, "content": content}`, appends a blank line, and
frames the result as the delta content of an SSE frame. -/
def create_sse_message (message_type : String) (content : SseContent) : String :=
  sseFrame ("\x7b\"message\": " ++ jsonStrLit message_type ++ ", \"content\": " ++
    dumpSseContent content ++ "\x7d" ++ "\n\n")

end DeepResearchCore

/-- Reassemble the content fragments framed in a concatenation of SSE frames
produced by `create_sse_message` (fuelled by the number of frames). -/
def decodeFramesAux : Nat → List Char → Option (List String)
  | _, [] => some []
  | 0, _ :: _ => none
  | f + 1, s =>
    (chomp sseFramePre.data s).bind fun s1 =>
      (takeJsonString s1).bind fun p =>
        (chomp sseFrameSufAfterQuote.data p.2).bind fun s3 =>
          (unescape p.1).bind fun content =>
            (decodeFramesAux f s3).map (content.asString :: ·)

/-- Concatenation of a list of frames (the byte stream a client receives). -/
def concatAll : List String → String
  | [] => ""
  | s :: rest => s ++ concatAll rest

/-- Decode a concatenation of SSE frames back into its content fragments. -/
def decodeFrames (s : String) : Option (List String) :=
  decodeFramesAux s.data.length s.data

/-! ## Python JSON values

`json.loads` in `reflection` (`deep_research/core.py`, line 249) and in the
tool-calling loop returns arbitrary JSON data; the controllers subscript it
like Python dicts. Floats do not occur in any behaviour under verification
and are omitted. -/

inductive PyVal where
  | none
  | bool (b : Bool)
  | int (n : Int)
  | str (s : String)
  | list (l : List PyVal)
  | dict (l : List (String × PyVal))

/-- Python truthiness of a JSON value. -/
def pyTruthy : PyVal → Bool
  | .none => false
  | .bool b => b
  | .int n => n != 0
  | .str s => s != ""
  | .list l => !l.isEmpty
  | .dict l => !l.isEmpty

/-- Python subscripting `value[key]` by a string key: a missing key raises
`KeyError` (whose `str()` is the `repr` of the key); subscripting a non-dict
value by a string raises `TypeError`. -/
def pySubscript (v : PyVal) (key : String) : Except String PyVal :=
  match v with
  | .dict l =>
    match l.lookup key with
    | some x => .ok x
    | Option.none => .error ("'" ++ key ++ "'")
  | .list _ => .error "list indices must be integers or slices, not str"
  | .str _ => .error "string indices must be integers"
  | _ => .error "object is not subscriptable"

/-- Python `key in value`: key containment for dicts, membership for lists,
substring test for strings, `TypeError` otherwise. -/
def pyContainsKey (key : String) : PyVal → Except String Bool
  | .dict l => .ok (l.any fun p => p.1 == key)
  | .list l => .ok (l.any fun v => match v with | .str s => s == key | _ => false)
  | .str s => .ok (decide ((s.splitOn key).length > 1))
  | _ => .error "argument of type is not iterable"

mutual

/-- Python `repr()` of a JSON value. -/
def pyRepr : PyVal → String
  | .none => "None"
  | .bool b => if b then "True" else "False"
  | .int n => toString n
  | .str s => "'" ++ s ++ "'"
  | .list l => "[" ++ String.intercalate ", " (pyReprList l) ++ "]"
  | .dict l => "\x7b" ++ String.intercalate ", " (pyReprPairs l) ++ "\x7d"

/-- `repr()` of each element of a list. -/
def pyReprList : List PyVal → List String
  | [] => []
  | v :: rest => pyRepr v :: pyReprList rest

/-- `repr()` of each `key: value` entry of a dict. -/
def pyReprPairs : List (String × PyVal) → List String
  | [] => []
  | (k, v) :: rest => ("'" ++ k ++ "': " ++ pyRepr v) :: pyReprPairs rest

end

/-- Python `str()` of a JSON value (as interpolated by f-strings). -/
def pyStr : PyVal → String
  | .str s => s
  | v => pyRepr v

/-- `str()` of an optional value (`None` prints as `None`). -/
def pyStrOpt : Option PyVal → String
  | Option.none => "None"
  | some v => pyStr v

/-- `n` spaces. -/
def spacesStr (n : Nat) : String := (List.replicate n ' ').asString

mutual

/-- `json.dumps(v, indent=2)` starting at nesting depth `level`. -/
def pyDumpsIndent (v : PyVal) (level : Nat) : String :=
  match v with
  | .none => "null"
  | .bool b => if b then "true" else "false"
  | .int n => toString n
  | .str s => jsonStrLit s
  | .list l =>
    if l.isEmpty then "[]"
    else "[\n" ++ String.intercalate ",\n" (pyDumpsIndentList l (level + 1)) ++
      "\n" ++ spacesStr (level * 2) ++ "]"
  | .dict l =>
    if l.isEmpty then "\x7b\x7d"
    else "\x7b\n" ++ String.intercalate ",\n" (pyDumpsIndentPairs l (level + 1)) ++
      "\n" ++ spacesStr (level * 2) ++ "\x7d"

/-- Indented dump of each element of a list. -/
def pyDumpsIndentList : List PyVal → Nat → List String
  | [], _ => []
  | v :: rest, level =>
    (spacesStr (level * 2) ++ pyDumpsIndent v level) :: pyDumpsIndentList rest level

/-- Indented dump of each `"key": value` entry of a dict. -/
def pyDumpsIndentPairs : List (String × PyVal) → Nat → List String
  | [], _ => []
  | (k, v) :: rest, level =>
    (spacesStr (level * 2) ++ jsonStrLit k ++ ": " ++ pyDumpsIndent v level) ::
      pyDumpsIndentPairs rest level

end

/-! ## Configuration (`server/config.py`) -/

namespace Config

/-- `Config.max_search_loop` (`server/config.py`, line 15). -/
def max_search_loop : Nat := 3

/-- `Config.search_query_results` (`server/config.py`, line 16). -/
def search_query_results : Nat := 5

/-- `Config.num_query_generated` (`server/config.py`, line 17). -/
def num_query_generated : Nat := 3

end Config

/-! ## The fixed deep-research pipeline (`server/skills/deep_research/core.py`)

`deep_research_stream` drives: query generation, web research, reflection,
a bounded refinement loop, and a streamed finalize phase.  Each call to an
external collaborator is abstracted into an environment field returning
`Except String`; the events yielded by the generator are reified as a list. -/

namespace DeepResearchCore

/-- `GenerateQueryData` (`server/skills/deep_research/schema.py`). -/
structure GenerateQueryData where
  rationale : String
  query : List String

/-- One run's external collaborators.  `webResearch k qs` is the result of
the `k`-th `web_research` call (its argument is the query collection passed
at that call site); `reflect k summary` is the `k`-th `reflection` call, a
JSON value as decoded by `json.loads`; `finalize summary` is the stream of
content deltas of `finalize_answer` followed by the message of an exception
raised mid-stream, if any. -/
structure DeepEnv where
  genQuery : Except String GenerateQueryData
  webResearch : Nat → PyVal → Except String String
  reflect : Nat → String → Except String PyVal
  finalize : String → List (Option String) × Option String

/-- The events yielded by `deep_research_stream`, tagged by their yield
site: `create_sse_message("notify", _)`, `create_sse_message("results", _)`,
`create_finalise_message(_)`, `create_sse_message("error", _)`, and the
terminal `b"data: [DONE]\n\n"`. -/
inductive DEvent where
  | notify (s : String)
  | results (qs : List String)
  | content (s : String)
  | error (s : String)
  | done
deriving DecidableEq

/-- Serialisation of an event into the frame actually yielded. -/
def encodeDEvent : DEvent → String
  | .notify s => create_sse_message "notify" (.str s)
  | .results qs => create_sse_message "results" (.strList qs)
  | .content s => create_finalise_message s
  | .error s => create_sse_message "error" (.str s)
  | .done => "data: [DONE]\n\n"

/-- The `while not reflection_result["is_sufficient"] and loop < 3:` loop of
`deep_research_stream` (lines 64-88).  Returns the events yielded inside the
loop and either the final `search_summary` or the message of the exception
that aborted it.  Note the condition subscripts `reflection_result` before
testing `loop < 3`, exactly as Python evaluates the conjunction. -/
def deepLoopRun (env : DeepEnv) (reflection_result : PyVal) (search_summary : String)
    (loop : Nat) : List DEvent × Except String String :=
  match pySubscript reflection_result "is_sufficient" with
  | .error m => ([], .error m)
  | .ok suff =>
    if _h : pyTruthy suff = false ∧ loop < 3 then
      match pySubscript reflection_result "follow_up_queries" with
      | .error m => ([.notify "Starting web research..."], .error m)
      | .ok fq =>
        match env.webResearch (loop + 1) fq with
        | .error m => ([.notify "Starting web research..."], .error m)
        | .ok summary' =>
          match env.reflect (loop + 1) summary' with
          | .error m => ([.notify "Starting web research...",
              .notify "Finished web research", .notify "Starting reflection..."], .error m)
          | .ok r' =>
            let rec_result := deepLoopRun env r' summary' (loop + 1)
            (.notify "Starting web research..." :: .notify "Finished web research" ::
             .notify "Starting reflection..." :: .notify "Finished reflection..." ::
             rec_result.1, rec_result.2)
    else ([], .ok search_summary)
termination_by 3 - loop
decreasing_by simp_wf; omega

/-- The body of the `try:` block of `deep_research_stream` (lines 30-91):
the events yielded and the message of the exception aborting it, if any. -/
def deepBody (env : DeepEnv) : List DEvent × Option String :=
  match env.genQuery with
  | .error m => ([.notify "Starting query generation..."], some m)
  | .ok q =>
    match env.webResearch 0 (PyVal.list (q.query.map PyVal.str)) with
    | .error m =>
      ([.notify "Starting query generation...", .notify "Finished query generation",
        .results q.query, .notify "Starting web research..."], some m)
    | .ok search_summary =>
      match env.reflect 0 search_summary with
      | .error m =>
        ([.notify "Starting query generation...", .notify "Finished query generation",
          .results q.query, .notify "Starting web research...",
          .notify "Finished web research", .notify "Starting reflection..."], some m)
      | .ok reflection_result =>
        let pre : List DEvent :=
          [.notify "Starting query generation...", .notify "Finished query generation",
           .results q.query, .notify "Starting web research...",
           .notify "Finished web research", .notify "Starting reflection...",
           .notify "Finished reflection..."]
        let loop_result := deepLoopRun env reflection_result search_summary 0
        match loop_result.2 with
        | .error m => (pre ++ loop_result.1, some m)
        | .ok final_summary =>
          let fin := env.finalize final_summary
          (pre ++ loop_result.1 ++ (fin.1.filterMap id).map DEvent.content, fin.2)

/-- `deep_research_stream` (lines 28-98): the body's events, then on an
exception one error frame carrying `f"An error occurred: {str(e)}"`, then
always the terminal `b"data: [DONE]\n\n"`. -/
def deep_research_stream (env : DeepEnv) : List DEvent :=
  match deepBody env with
  | (evts, some m) => evts ++ [.error ("An error occurred: " ++ m), .done]
  | (evts, Option.none) => evts ++ [.done]

/-- Whether an event is an error frame. -/
def DEvent.isErr : DEvent → Bool
  | .error _ => true
  | _ => false

/-- Whether an event is the notify opening a WebResearch/Reflect round
(both the initial round, line 47, and loop rounds, line 67, open with
exactly this notification). -/
def isRoundStart : DEvent → Bool
  | .notify s => s == "Starting web research..."
  | _ => false

/-- Number of WebResearch/Reflect rounds performed in a run. -/
def webRounds (t : List DEvent) : Nat := t.countP isRoundStart

/-- The `search_context` accumulation of `web_research` (lines 189-193):
formatted results of sequential searches, in query order, each followed by
a newline. -/
def web_research_search_context {α : Type} (search : String → α)
    (format_search_results : α → String) (queries : List String) : String :=
  queries.foldl
    (fun search_context query =>
      search_context ++ format_search_results (search query) ++ "\n") ""

end DeepResearchCore

/-! ## The tool-calling research loop (`server/skills/research`)

`research_chat` streams model turns, reassembles tool-call deltas, executes
tools through the MCP bridge, and loops until a tool-call-free turn or the
iteration cap. -/

namespace ResearchUtils

/-- `format_tool_result` (`server/skills/research/utils.py`, lines 80-95).
An `Except.error` models the (unreachable in normal operation) `TypeError`/
`AttributeError` paths of the Python code, which would propagate to the
run-level handler. -/
def format_tool_result (tool_name : String) (result : Option PyVal) :
    Except String String :=
  match result with
  | Option.none => .ok ("Tool " ++ tool_name ++ " returned no result")
  | some r =>
    match pyContainsKey "error" r with
    | .error m => .error m
    | .ok true =>
      match pySubscript r "error" with
      | .error m => .error m
      | .ok v => .ok ("Error calling " ++ tool_name ++ ": " ++ pyStr v)
    | .ok false =>
      match pyContainsKey "content" r with
      | .error m => .error m
      | .ok true =>
        match pySubscript r "content" with
        | .error m => .error m
        | .ok (.list items) =>
          match collectTexts items with
          | .error m => .error m
          | .ok parts => .ok (String.intercalate "\n" parts)
        | .ok _ => .ok (pyDumpsIndent r 0)
      | .ok false => .ok (pyDumpsIndent r 0)
where
  /-- The `for content_item in result["content"]` collection loop: text of
  every item whose `type` is `"text"` (`.get("text", "")` defaulting to the
  empty string), a non-dict item or non-string text raising. -/
  collectTexts : List PyVal → Except String (List String)
    | [] => .ok []
    | item :: rest =>
      match item with
      | .dict d =>
        match d.lookup "type" with
        | some (.str t) =>
          if t = "text" then
            match (d.lookup "text").getD (.str "") with
            | .str s =>
              match collectTexts rest with
              | .error m => .error m
              | .ok parts => .ok (s :: parts)
            | _ => .error "sequence item: expected str instance"
          else collectTexts rest
        | _ => collectTexts rest
      | _ => .error "object has no attribute get"

end ResearchUtils

namespace ResearchCore

/-- The `function` part of a streamed tool-call delta. -/
structure FnDelta where
  name : Option String
  arguments : Option String

/-- A streamed tool-call delta (`delta.tool_calls[i]`): positional index,
id fragment, and function fragments, each optional. -/
structure ToolCallDelta where
  index : Option Nat
  id : Option String
  function : Option FnDelta

/-- A tool call as accumulated by the reassembly loop (`core.py`,
lines 84-91: placeholders start as `{"id": None, "function": {"name": "",
"arguments": ""}}`). -/
structure ToolCallAcc where
  id : Option String
  name : String
  arguments : String
deriving DecidableEq

/-- The placeholder appended while padding the accumulated list. -/
def placeholderCall : ToolCallAcc := { id := Option.none, name := "", arguments := "" }

/-- Python truthiness of an optional string (`None` and `""` are falsy). -/
def optTruthy : Option String → Bool
  | Option.none => false
  | some s => s != ""

/-- One chunk of a streaming completion: content delta, tool-call deltas
(`delta.tool_calls`, empty when absent), and finish reason. -/
structure StreamChunk where
  content : Option String
  tool_calls : List ToolCallDelta
  finish_reason : Option String

/-- The field updates applied to the entry at the delta's index
(`core.py`, lines 93-104): a truthy id replaces the stored id, truthy name
and arguments fragments are appended. -/
def updateCall (tc : ToolCallAcc) (d : ToolCallDelta) : ToolCallAcc :=
  let tc1 := match d.id with
    | some s => if s ≠ "" then { tc with id := some s } else tc
    | Option.none => tc
  match d.function with
  | Option.none => tc1
  | some f =>
    let tc2 := match f.name with
      | some s => if s ≠ "" then { tc1 with name := tc1.name ++ s } else tc1
      | Option.none => tc1
    match f.arguments with
    | some s => if s ≠ "" then { tc2 with arguments := tc2.arguments ++ s } else tc2
    | Option.none => tc2

/-- The `while len(tool_calls) <= tool_call.index:` padding loop
(lines 84-91): append placeholders until position `i` exists. -/
def padCalls (acc : List ToolCallAcc) (i : Nat) : List ToolCallAcc :=
  acc ++ List.replicate (i + 1 - acc.length) placeholderCall

/-- Processing of one streamed tool-call delta (lines 81-104): a delta
without an index is skipped entirely; otherwise the list is padded up to the
index and the entry there updated in place. -/
def applyToolCallDelta (acc : List ToolCallAcc) (d : ToolCallDelta) : List ToolCallAcc :=
  match d.index with
  | Option.none => acc
  | some i =>
    let acc' := padCalls acc i
    acc'.set i (updateCall (acc'.getD i placeholderCall) d)

/-- Accumulate the deltas of one chunk, in order. -/
def accToolCallDeltas (acc : List ToolCallAcc) (ds : List ToolCallDelta) :
    List ToolCallAcc :=
  ds.foldl applyToolCallDelta acc

/-- Tool calls reassembled over a whole stream of chunks. -/
def streamToolCalls (chunks : List StreamChunk) : List ToolCallAcc :=
  chunks.foldl (fun a c => accToolCallDeltas a c.tool_calls) []

/-- Content deltas of a whole stream, in arrival order (only non-null
contents are forwarded, line 74). -/
def streamContents (chunks : List StreamChunk) : List String :=
  chunks.filterMap (·.content)

/-- The completeness test applied before attaching a reassembled tool call
to the assistant message (line 120): truthy `id` and non-empty `name`. -/
def isComplete (tc : ToolCallAcc) : Bool := optTruthy tc.id && tc.name != ""

/-- `[tc for tc in tool_calls if tc["id"] and tc["function"]["name"]]`. -/
def completeToolCalls (l : List ToolCallAcc) : List ToolCallAcc := l.filter isComplete

/-- A conversation message. -/
structure Msg where
  role : String
  content : Option String
  tool_calls : Option (List ToolCallAcc) := Option.none
  tool_call_id : Option String := Option.none
deriving DecidableEq

/-- The events yielded by `research_chat`, tagged by their yield site: all
non-terminal events go through the one-argument `create_sse_message`. -/
inductive REvent where
  | notify (s : String)
  | content (s : String)
  | error (s : String)
  | done
deriving DecidableEq

/-- Serialisation of an event into the frame actually yielded. -/
def encodeREvent : REvent → String
  | .notify s => DeepResearchUtils.create_sse_message s
  | .content s => DeepResearchUtils.create_sse_message s
  | .error s => DeepResearchUtils.create_sse_message s
  | .done => "data: [DONE]\n\n"

/-- One run's external collaborators.  `streamAt k` is the chunk sequence of
the `k`-th (1-based) streaming completion together with the message of an
exception raised while creating or draining it, if any; `jsonLoads` is
`json.loads` on tool-call arguments; `toolResult j` is the value of the
`j`-th `call_mcp_tool` invocation of the run (that helper catches its own
exceptions and returns an error payload, or `None` when the bridge answers
200 without `result` or `error`). -/
structure REnv where
  systemContent : String
  streamAt : Nat → List StreamChunk × Option String
  jsonLoads : String → Except String PyVal
  toolResult : Nat → Option PyVal

/-- The `for tool_call in tool_calls:` execution loop (lines 138-161):
parse arguments, yield the `Calling` notify, call the tool, format, append
the tool-role message with the matching `tool_call_id`, yield `Completed`.
Returns yielded events, the new conversation, the next tool-call counter,
and the message of an exception, if any. -/
def execToolCalls (env : REnv) : List ToolCallAcc → List Msg → Nat →
    List REvent × List Msg × Nat × Option String
  | [], conv, ctr => ([], conv, ctr, Option.none)
  | tc :: rest, conv, ctr =>
    match env.jsonLoads tc.arguments with
    | .error m => ([], conv, ctr, some m)
    | .ok _args =>
      match ResearchUtils.format_tool_result tc.name (env.toolResult ctr) with
      | .error m =>
        ([.notify ("[NOTIFY] Calling " ++ tc.name ++ "...\n\n")], conv, ctr, some m)
      | .ok formatted =>
        let conv' := conv ++ [{ role := "tool", content := some formatted,
                                tool_call_id := tc.id : Msg }]
        let r := execToolCalls env rest conv' (ctr + 1)
        (.notify ("[NOTIFY] Calling " ++ tc.name ++ "...\n\n") ::
         .notify ("[NOTIFY] Completed " ++ tc.name ++ "\n\n") :: r.1,
         r.2.1, r.2.2.1, r.2.2.2)

/-- Outcome of one iteration of the research loop: the run raised an
exception, finished on a tool-call-free turn (`break`), or executed tool
calls and continues to the next model turn. -/
inductive IterOut where
  | raised (evts : List REvent) (conv : List Msg) (msg : String)
  | finished (evts : List REvent) (conv : List Msg)
  | continued (evts : List REvent) (conv : List Msg) (ctr : Nat)
deriving DecidableEq

/-- The events yielded during one iteration. -/
def IterOut.events : IterOut → List REvent
  | .raised e _ _ => e
  | .finished e _ => e
  | .continued e _ _ => e

/-- One iteration of the `while iteration < max_iterations:` loop body
(lines 49-181): the thinking notification, the streamed completion (content
deltas forwarded, tool-call deltas reassembled), the assistant message, and
either the `break` on a tool-call-free turn or tool execution followed by
`continue`. -/
def runIter (env : REnv) (conv : List Msg) (ctr : Nat) (iter : Nat) : IterOut :=
  let thinking : REvent :=
    .notify ("[NOTIFY] Thinking... (iteration " ++ toString iter ++ ")\n\n")
  let stream := env.streamAt iter
  let contentEvts := (streamContents stream.1).map REvent.content
  match stream.2 with
  | some m => .raised (thinking :: contentEvts) conv m
  | Option.none =>
    let full_content := String.join (streamContents stream.1)
    let tool_calls := streamToolCalls stream.1
    let complete := completeToolCalls tool_calls
    let asst : Msg :=
      { role := "assistant",
        content := if full_content = "" then Option.none else some full_content,
        tool_calls :=
          if tool_calls.isEmpty then Option.none
          else if complete.isEmpty then Option.none
          else some complete }
    let conv1 := conv ++ [asst]
    let tcs := asst.tool_calls.getD []
    if tcs.isEmpty then .finished (thinking :: contentEvts) conv1
    else
      let executing : REvent :=
        .notify ("[NOTIFY] Executing " ++ toString tcs.length ++ " tool call(s)...\n\n")
      let r := execToolCalls env tcs conv1 ctr
      match r.2.2.2 with
      | some m => .raised (thinking :: contentEvts ++ executing :: r.1) r.2.1 m
      | Option.none =>
        .continued (thinking :: contentEvts ++ executing :: r.1) r.2.1 r.2.2.1

/-- The `while iteration < max_iterations:` loop of `research_chat`
(lines 48-181), from a given iteration counter value.  Returns the yielded
events, the final conversation, and the message of an exception, if any. -/
def researchLoopRun (env : REnv) (conv : List Msg) (ctr : Nat) (iteration : Nat) :
    List REvent × List Msg × Option String :=
  if _h : iteration < 10 then
    match runIter env conv ctr (iteration + 1) with
    | .raised evts conv' m => (evts, conv', some m)
    | .finished evts conv' => (evts, conv', Option.none)
    | .continued evts conv' ctr' =>
      let r := researchLoopRun env conv' ctr' (iteration + 1)
      (evts ++ r.1, r.2.1, r.2.2)
  else ([], conv, Option.none)
termination_by 10 - iteration
decreasing_by simp_wf; omega

/-- `research_chat` (lines 14-188): system message prepended to the input
history, the fetch-tools notify, the loop's events, then on an exception one
error frame carrying `f"[ERROR] An error occurred: {str(e)}"`, then always
the terminal `b"data: [DONE]\n\n"`. -/
def research_chat (env : REnv) (messages : List Msg) : List REvent :=
  let conv := { role := "system", content := some env.systemContent : Msg } :: messages
  let r := researchLoopRun env conv 0 0
  match r.2.2 with
  | some m =>
    .notify "[NOTIFY] Fetching available tools...\n\n" ::
      r.1 ++ [.error ("[ERROR] An error occurred: " ++ m), .done]
  | Option.none => .notify "[NOTIFY] Fetching available tools...\n\n" :: r.1 ++ [.done]

/-- Whether an event is an error frame. -/
def REvent.isErr : REvent → Bool
  | .error _ => true
  | _ => false

/-- Whether one character list starts with another. -/
def listStartsWith : List Char → List Char → Bool
  | [], _ => true
  | _ :: _, [] => false
  | a :: as, b :: bs => a == b && listStartsWith as bs

/-- Whether an event is the notify opening a model turn (the per-iteration
`[NOTIFY] Thinking... (iteration i)` notification). -/
def isModelTurn : REvent → Bool
  | .notify s => listStartsWith "[NOTIFY] Thinking".data s.data
  | _ => false

/-- Number of model turns performed in a run. -/
def modelTurns (t : List REvent) : Nat := t.countP isModelTurn

end ResearchCore

/-! ## The MCP tool bridge (`server/routes/mcp.py`) -/

namespace McpRoutes

/-- `MCPRequest` (`server/routes/mcp.py`, lines 16-20). -/
structure MCPRequest where
  jsonrpc : String := "2.0"
  id : Option String := Option.none
  method : String
  params : Option (List (String × PyVal)) := Option.none

/-- A JSON-RPC error object `{code, message}`. -/
structure MCPError where
  code : Int
  message : String
deriving DecidableEq

/-- `MCPResponse` (lines 23-27). -/
structure MCPResponse where
  jsonrpc : String := "2.0"
  id : Option String := Option.none
  result : Option PyVal := Option.none
  error : Option MCPError := Option.none

/-- The `initialize` result payload (lines 130-137). -/
def initializeResult : PyVal :=
  .dict [("protocolVersion", .str "2024-11-05"),
         ("capabilities", .dict [("tools", .dict []), ("prompts", .dict [])]),
         ("serverInfo", .dict [("name", .str "Serper MCP Server"),
                               ("version", .str "0.1.0")])]

/-- The `tools/list` result payload (lines 139-207). -/
def toolsListResult : PyVal :=
  .dict [("tools", .list
    [.dict [("name", .str "google_search"),
            ("description", .str "Tool to perform web searches via Serper API and retrieve rich results. It is able to retrieve organic search results, people also ask, related searches, and knowledge graph."),
            ("inputSchema", .dict
              [("type", .str "object"),
               ("properties", .dict
                 [("q", .dict [("type", .str "string"),
                    ("description", .str "Search query string")]),
                  ("gl", .dict [("type", .str "string"),
                    ("description", .str "Optional region code for search results in ISO 3166-1 alpha-2 format (e.g., 'us')")]),
                  ("hl", .dict [("type", .str "string"),
                    ("description", .str "Optional language code for search results in ISO 639-1 format (e.g., 'en')")]),
                  ("location", .dict [("type", .str "string"),
                    ("description", .str "Optional location for search results (e.g., 'SoHo, New York, United States', 'California, United States')")]),
                  ("num", .dict [("type", .str "number"),
                    ("description", .str "Number of results to return (default: 10)")]),
                  ("page", .dict [("type", .str "number"),
                    ("description", .str "Page number of results to return (default: 1)")]),
                  ("tbs", .dict [("type", .str "string"),
                    ("description", .str "Time-based search filter ('qdr:h' for past hour, 'qdr:d' for past day, 'qdr:w' for past week, 'qdr:m' for past month, 'qdr:y' for past year)")]),
                  ("autocorrect", .dict [("type", .str "boolean"),
                    ("description", .str "Whether to autocorrect spelling in query")])]),
               ("required", .list [.str "q", .str "gl", .str "hl"])])],
     .dict [("name", .str "scrape"),
            ("description", .str "Tool to scrape a webpage and retrieve the text and, optionally, the markdown content. It will retrieve also the JSON-LD metadata and the head metadata."),
            ("inputSchema", .dict
              [("type", .str "object"),
               ("properties", .dict
                 [("url", .dict [("type", .str "string"),
                    ("description", .str "The URL of the webpage to scrape.")]),
                  ("includeMarkdown", .dict [("type", .str "boolean"),
                    ("description", .str "Whether to include markdown content."),
                    ("default", .bool false)])]),
               ("required", .list [.str "url"])])]])]

/-- Python's `tool_name == "google_search"` comparison: `tool_name` is
`request.params.get("name")`, an arbitrary JSON value or `None`; only an
equal string compares equal. -/
def optValIsStr : Option PyVal → String → Bool
  | some (.str s), t => s == t
  | _, _ => false

/-- One handler's external collaborators: whether `serper_client` was
configured at module initialisation, and the two tool invocations
(`SearchParams(**arguments)`/`ScrapeParams(**arguments)` validation composed
with the provider call — an `Except.error` models either step raising). -/
structure MCPEnv where
  serperConfigured : Bool
  doSearch : PyVal → Except String PyVal
  doScrape : PyVal → Except String PyVal

/-- `MCPServer.handle_request` (lines 126-263): dispatch on `method`, with
the surrounding `try/except` converting any exception into a `-32000`
response carrying the exception's message. -/
def handle_request (env : MCPEnv) (request : MCPRequest) : MCPResponse :=
  if request.method = "initialize" then
    { id := request.id, result := some initializeResult }
  else if request.method = "tools/list" then
    { id := request.id, result := some toolsListResult }
  else if request.method = "tools/call" then
    if !env.serperConfigured then
      { id := request.id, error := some ⟨-32000, "SERPER_API_KEY not configured"⟩ }
    else
      match request.params with
      | Option.none =>
        -- `request.params.get("name")` raises `AttributeError` on `None`,
        -- caught by the handler's `except` clause
        { id := request.id,
          error := some ⟨-32000, "'NoneType' object has no attribute 'get'"⟩ }
      | some params =>
        let tool_name := params.lookup "name"
        let arguments : PyVal := (params.lookup "arguments").getD (.dict [])
        if optValIsStr tool_name "google_search" then
          match env.doSearch arguments with
          | .error m => { id := request.id, error := some ⟨-32000, m⟩ }
          | .ok result =>
            { id := request.id, result := some (.dict [("content", .list
                [.dict [("type", .str "text"),
                        ("text", .str (pyDumpsIndent result 0))]])]) }
        else if optValIsStr tool_name "scrape" then
          match env.doScrape arguments with
          | .error m => { id := request.id, error := some ⟨-32000, m⟩ }
          | .ok result =>
            { id := request.id, result := some (.dict [("content", .list
                [.dict [("type", .str "text"),
                        ("text", .str (pyDumpsIndent result 0))]])]) }
        else
          { id := request.id,
            error := some ⟨-32601, "Unknown tool: " ++ pyStrOpt tool_name⟩ }
  else
    { id := request.id, error := some ⟨-32601, "Unknown method: " ++ request.method⟩ }

end McpRoutes

/-! ## Lemmas: the JSON escaper is lossless -/

theorem hexVal_hexDigitChar (m : Nat) (h : m < 16) : hexVal (hexDigitChar m) = some m := by
  interval_cases m <;> decide

theorem hexDigitChar_ne (m : Nat) (h : m < 16) :
    hexDigitChar m ≠ '"' ∧ hexDigitChar m ≠ '\\' := by
  interval_cases m <;> decide

theorem readHex4_hex4 (n : Nat) (h : n < 65536) (rest : List Char) :
    readHex4 (hex4 n ++ rest) = some (n, rest) := by
  have h3 : n / 4096 % 16 < 16 := Nat.mod_lt _ (by norm_num)
  have h2 : n / 256 % 16 < 16 := Nat.mod_lt _ (by norm_num)
  have h1 : n / 16 % 16 < 16 := Nat.mod_lt _ (by norm_num)
  have h0 : n % 16 < 16 := Nat.mod_lt _ (by norm_num)
  simp only [hex4, List.cons_append, List.nil_append, readHex4,
    hexVal_hexDigitChar _ h3, hexVal_hexDigitChar _ h2,
    hexVal_hexDigitChar _ h1, hexVal_hexDigitChar _ h0]
  congr 1
  refine Prod.ext ?_ rfl
  show n / 4096 % 16 * 4096 + n / 256 % 16 * 256 + n / 16 % 16 * 16 + n % 16 = n
  omega

/-- Validity range of a Unicode scalar value. -/
theorem char_toNat_valid (c : Char) :
    c.toNat < 55296 ∨ (57343 < c.toNat ∧ c.toNat < 1114112) := by
  have h := c.valid
  simpa [UInt32.isValidChar, Nat.isValidChar, Char.toNat] using h

theorem unescStep_escapeChar (c : Char) (rest : List Char) :
    unescStep (escapeChar c ++ rest) = some (c, rest) := by
  have hval := char_toNat_valid c
  by_cases e1 : c = '"'
  · subst e1; rfl
  by_cases e2 : c = '\\'
  · subst e2; rfl
  by_cases e3 : c = '\n'
  · subst e3; rfl
  by_cases e4 : c = '\r'
  · subst e4; rfl
  by_cases e5 : c = '\t'
  · subst e5; rfl
  by_cases e6 : c.toNat = 8
  · have hc : Char.ofNat 8 = c := e6 ▸ Char.ofNat_toNat c
    simp only [escapeChar, e1, e2, e3, e4, e5, e6, if_false, if_true,
      ite_false, ite_true, if_pos, if_neg, not_false_eq_true]
    simp [unescStep]
    exact hc
  by_cases e7 : c.toNat = 12
  · have hc : Char.ofNat 12 = c := e7 ▸ Char.ofNat_toNat c
    simp only [escapeChar, e1, e2, e3, e4, e5, e6, e7, if_false, if_true,
      ite_false, ite_true, if_pos, if_neg, not_false_eq_true]
    simp [unescStep]
    exact hc
  by_cases e8 : 32 ≤ c.toNat ∧ c.toNat ≤ 126
  · simp [escapeChar, e1, e2, e3, e4, e5, e6, e7, e8, unescStep]
  by_cases e9 : c.toNat < 65536
  · have hs : ¬(55296 ≤ c.toNat ∧ c.toNat < 56320) := by omega
    have hr : c.toNat < 55296 ∨ 57344 ≤ c.toNat := by omega
    have hesc : escapeChar c = '\\' :: 'u' :: hex4 c.toNat := by
      simp [escapeChar, e1, e2, e3, e4, e5, e6, e7, e8, e9]
    rw [hesc]
    simp only [List.cons_append]
    simp [unescStep, readHex4_hex4 c.toNat e9 rest, hs, hr, Char.ofNat_toNat]
  · have hge : 65536 ≤ c.toNat := by omega
    have hlt : c.toNat < 1114112 := by omega
    have hdiv : (c.toNat - 65536) / 1024 < 1024 := by omega
    have hmod : (c.toNat - 65536) % 1024 < 1024 := Nat.mod_lt _ (by norm_num)
    have hhi : 55296 ≤ 55296 + (c.toNat - 65536) / 1024 ∧
        55296 + (c.toNat - 65536) / 1024 < 56320 := by omega
    have hlo : 56320 ≤ 56320 + (c.toNat - 65536) % 1024 ∧
        56320 + (c.toNat - 65536) % 1024 < 57344 := by omega
    have hhi' : 55296 + (c.toNat - 65536) / 1024 < 65536 := by omega
    have hlo' : 56320 + (c.toNat - 65536) % 1024 < 65536 := by omega
    have hesc : escapeChar c = '\\' :: 'u' :: hex4 (55296 + (c.toNat - 65536) / 1024) ++
        '\\' :: 'u' :: hex4 (56320 + (c.toNat - 65536) % 1024) := by
      simp [escapeChar, e1, e2, e3, e4, e5, e6, e7, e8, e9]
    rw [hesc]
    simp only [List.cons_append, List.append_assoc]
    simp [unescStep, readHex4_hex4 _ hhi', hhi, readHex4_hex4 _ hlo' rest, hlo]
    have harith2 : 65536 + (c.toNat - 65536) / 1024 * 1024 + (c.toNat - 65536) % 1024 =
        c.toNat := by omega
    rw [harith2, Char.ofNat_toNat]

theorem escapeChar_ne_nil (c : Char) : escapeChar c ≠ [] := by
  unfold escapeChar
  repeat' split
  all_goals simp

theorem unescapeAux_escList (l : List Char) :
    ∀ f : Nat, (escList l).length ≤ f → unescapeAux f (escList l) = some l := by
  induction l with
  | nil => intro f _; cases f <;> rfl
  | cons c l ih =>
    intro f hf
    have hE : escList (c :: l) = escapeChar c ++ escList l := by
      simp [escList]
    have hpos : 0 < (escList (c :: l)).length := by
      rw [hE]
      have := escapeChar_ne_nil c
      cases hc : escapeChar c with
      | nil => exact absurd hc this
      | cons a as => simp [hc]
    obtain ⟨f', rfl⟩ : ∃ f', f = f' + 1 := by
      cases f with
      | zero => omega
      | succ f' => exact ⟨f', rfl⟩
    obtain ⟨a, as, ha⟩ : ∃ a as, escList (c :: l) = a :: as := by
      cases hc : escList (c :: l) with
      | nil => rw [hc] at hpos; simp at hpos
      | cons a as => exact ⟨a, as, rfl⟩
    rw [ha]
    simp only [unescapeAux]
    rw [← ha, hE, unescStep_escapeChar]
    show (unescapeAux f' (escList l)).map (c :: ·) = some (c :: l)
    have hlen : (escList l).length ≤ f' := by
      have h1 : 1 ≤ (escapeChar c).length := by
        have := escapeChar_ne_nil c
        cases hc : escapeChar c with
        | nil => exact absurd hc this
        | cons x xs => simp [hc]
      have h2 : (escList (c :: l)).length = (escapeChar c).length + (escList l).length := by
        rw [hE]; simp
      omega
    rw [ih f' hlen]
    rfl

/-- The JSON escaper is lossless: decoding an escaped body recovers it. -/
theorem unescape_escList (l : List Char) : unescape (escList l) = some l :=
  unescapeAux_escList l _ le_rfl

theorem takeJsonString_quote (R : List Char) : takeJsonString ('"' :: R) = some ([], R) := by
  rw [takeJsonString.eq_def]
  rfl

theorem takeJsonString_escPair (e : Char) (R : List Char) :
    takeJsonString ('\\' :: e :: R) =
      (takeJsonString R).map (fun p => ('\\' :: e :: p.1, p.2)) := by
  rw [takeJsonString.eq_def]
  rfl

theorem takeJsonString_lit (c : Char) (hq : c ≠ '"') (hb : c ≠ '\\') (R : List Char) :
    takeJsonString (c :: R) = (takeJsonString R).map (fun p => (c :: p.1, p.2)) := by
  rw [takeJsonString.eq_def]
  simp [hq, hb]

theorem takeJsonString_lits (ds : List Char) (h : ∀ d ∈ ds, d ≠ '"' ∧ d ≠ '\\')
    (R : List Char) :
    takeJsonString (ds ++ R) = (takeJsonString R).map (fun p => (ds ++ p.1, p.2)) := by
  induction ds with
  | nil => cases hR : takeJsonString R <;> simp [hR]
  | cons d ds ih =>
    have hd := h d (by simp)
    have hds : ∀ x ∈ ds, x ≠ '"' ∧ x ≠ '\\' := fun x hx => h x (by simp [hx])
    rw [List.cons_append, takeJsonString_lit d hd.1 hd.2, ih hds]
    cases hR : takeJsonString R <;> simp [hR]

theorem hex4_ne (n : Nat) : ∀ d ∈ hex4 n, d ≠ '"' ∧ d ≠ '\\' := by
  intro d hd
  have h3 : n / 4096 % 16 < 16 := Nat.mod_lt _ (by norm_num)
  have h2 : n / 256 % 16 < 16 := Nat.mod_lt _ (by norm_num)
  have h1 : n / 16 % 16 < 16 := Nat.mod_lt _ (by norm_num)
  have h0 : n % 16 < 16 := Nat.mod_lt _ (by norm_num)
  simp only [hex4, List.mem_cons, List.not_mem_nil, or_false] at hd
  rcases hd with h | h | h | h <;> subst h
  · exact hexDigitChar_ne _ h3
  · exact hexDigitChar_ne _ h2
  · exact hexDigitChar_ne _ h1
  · exact hexDigitChar_ne _ h0

theorem takeJsonString_escapeChar (c : Char) (R : List Char) :
    takeJsonString (escapeChar c ++ R) =
      (takeJsonString R).map (fun p => (escapeChar c ++ p.1, p.2)) := by
  by_cases e1 : c = '"'
  · subst e1
    rw [show escapeChar '"' ++ R = '\\' :: '"' :: R from rfl, takeJsonString_escPair]
    cases hR : takeJsonString R <;> simp [hR, escapeChar]
  by_cases e2 : c = '\\'
  · subst e2
    rw [show escapeChar '\\' ++ R = '\\' :: '\\' :: R from rfl, takeJsonString_escPair]
    cases hR : takeJsonString R <;> simp [hR, escapeChar]
  by_cases e3 : c = '\n'
  · subst e3
    rw [show escapeChar '\n' ++ R = '\\' :: 'n' :: R from rfl, takeJsonString_escPair]
    cases hR : takeJsonString R <;> simp [hR, escapeChar]
  by_cases e4 : c = '\r'
  · subst e4
    rw [show escapeChar '\r' ++ R = '\\' :: 'r' :: R from rfl, takeJsonString_escPair]
    cases hR : takeJsonString R <;> simp [hR, escapeChar]
  by_cases e5 : c = '\t'
  · subst e5
    rw [show escapeChar '\t' ++ R = '\\' :: 't' :: R from rfl, takeJsonString_escPair]
    cases hR : takeJsonString R <;> simp [hR, escapeChar]
  by_cases e6 : c.toNat = 8
  · have hesc : escapeChar c = ['\\', 'b'] := by
      simp [escapeChar, e1, e2, e3, e4, e5, e6]
    rw [hesc]
    rw [show (['\\', 'b'] : List Char) ++ R = '\\' :: 'b' :: R from rfl,
      takeJsonString_escPair]
    cases hR : takeJsonString R <;> simp [hR]
  by_cases e7 : c.toNat = 12
  · have hesc : escapeChar c = ['\\', 'f'] := by
      simp [escapeChar, e1, e2, e3, e4, e5, e6, e7]
    rw [hesc]
    rw [show (['\\', 'f'] : List Char) ++ R = '\\' :: 'f' :: R from rfl,
      takeJsonString_escPair]
    cases hR : takeJsonString R <;> simp [hR]
  by_cases e8 : 32 ≤ c.toNat ∧ c.toNat ≤ 126
  · have hesc : escapeChar c = [c] := by
      simp [escapeChar, e1, e2, e3, e4, e5, e6, e7, e8]
    rw [hesc, show [c] ++ R = c :: R from rfl, takeJsonString_lit c e1 e2 R]
    cases hR : takeJsonString R <;> simp [hR]
  by_cases e9 : c.toNat < 65536
  · have hesc : escapeChar c = '\\' :: 'u' :: hex4 c.toNat := by
      simp [escapeChar, e1, e2, e3, e4, e5, e6, e7, e8, e9]
    rw [hesc]
    simp only [List.cons_append]
    rw [takeJsonString_escPair, takeJsonString_lits (hex4 c.toNat) (hex4_ne c.toNat) R]
    cases hR : takeJsonString R <;> simp [hR]
  · have hesc : escapeChar c = '\\' :: 'u' :: hex4 (55296 + (c.toNat - 65536) / 1024) ++
        '\\' :: 'u' :: hex4 (56320 + (c.toNat - 65536) % 1024) := by
      simp [escapeChar, e1, e2, e3, e4, e5, e6, e7, e8, e9]
    rw [hesc]
    simp only [List.cons_append, List.append_assoc]
    rw [takeJsonString_escPair,
      takeJsonString_lits _ (hex4_ne (55296 + (c.toNat - 65536) / 1024)),
      takeJsonString_escPair,
      takeJsonString_lits _ (hex4_ne (56320 + (c.toNat - 65536) % 1024))]
    cases hR : takeJsonString R <;> simp [hR]

theorem takeJsonString_escList (l : List Char) (R : List Char) :
    takeJsonString (escList l ++ '"' :: R) = some (escList l, R) := by
  induction l with
  | nil => simpa [escList] using takeJsonString_quote R
  | cons c l ih =>
    have hE : escList (c :: l) = escapeChar c ++ escList l := by simp [escList]
    rw [hE, List.append_assoc, takeJsonString_escapeChar, ih]
    rfl

theorem chomp_append (p r : List Char) : chomp p (p ++ r) = some r := by
  induction p with
  | nil => rfl
  | cons a p ih => simp [chomp, ih]

theorem asString_data (l : List Char) : (l.asString).data = l := rfl

theorem data_asString (s : String) : (s.data).asString = s := rfl

theorem sseFrame_data (c : String) :
    (sseFrame c).data =
      sseFramePre.data ++ (escList c.data ++ ('"' :: sseFrameSufAfterQuote.data)) := by
  simp [sseFrame, pyEscape, String.data_append, asString_data, List.append_assoc]

theorem decodeFramesAux_succ (f : Nat) (s : List Char) (h : s ≠ []) :
    decodeFramesAux (f + 1) s =
      (chomp sseFramePre.data s).bind fun s1 =>
        (takeJsonString s1).bind fun p =>
          (chomp sseFrameSufAfterQuote.data p.2).bind fun s3 =>
            (unescape p.1).bind fun content =>
              (decodeFramesAux f s3).map (content.asString :: ·) := by
  cases s with
  | nil => exact absurd rfl h
  | cons a as => rfl

theorem concatAll_cons_data (s : String) (rest : List String) :
    (concatAll (s :: rest)).data = s.data ++ (concatAll rest).data := by
  simp [concatAll, String.data_append]

theorem decodeFramesAux_concat (frags : List String) :
    ∀ f : Nat, frags.length ≤ f →
      decodeFramesAux f (concatAll (frags.map sseFrame)).data = some frags := by
  induction frags with
  | nil => intro f _; cases f <;> rfl
  | cons s fs ih =>
    intro f hf
    obtain ⟨f', rfl⟩ : ∃ f', f = f' + 1 := by
      cases f with
      | zero => simp at hf
      | succ f' => exact ⟨f', rfl⟩
    have hdata : (concatAll ((s :: fs).map sseFrame)).data =
        sseFramePre.data ++ (escList s.data ++
          ('"' :: (sseFrameSufAfterQuote.data ++ (concatAll (fs.map sseFrame)).data))) := by
      rw [List.map_cons, concatAll_cons_data, sseFrame_data]
      simp [List.append_assoc]
    rw [hdata]
    have hpre_ne : sseFramePre.data ≠ [] := by decide
    rw [decodeFramesAux_succ f' _ (by
      intro hcontra
      exact hpre_ne (List.append_eq_nil.mp hcontra).1)]
    rw [chomp_append]
    simp only [Option.some_bind, takeJsonString_escList, chomp_append,
      unescape_escList]
    have hlen : fs.length ≤ f' := by simpa using hf
    rw [ih f' hlen]
    simp [data_asString]

theorem length_le_concat (frags : List String) :
    frags.length ≤ (concatAll (frags.map sseFrame)).data.length := by
  induction frags with
  | nil => simp [concatAll]
  | cons s fs ih =>
    rw [List.map_cons, concatAll_cons_data, List.length_append, sseFrame_data]
    simp only [List.length_append, List.length_cons]
    omega

/-- Decoding a concatenation of SSE frames recovers the framed fragments. -/
theorem decodeFrames_concat (frags : List String) :
    decodeFrames (concatAll (frags.map sseFrame)) = some frags :=
  decodeFramesAux_concat frags _ (length_le_concat frags)

/-- **C5**: SSE framing is deterministic and lossless: encoding the same
content twice yields byte-identical frames (the frame is a function of the
content alone — `create_finalise_message` of the controller and
`create_sse_message` of the utils module even agree frame-for-frame), and
decoding (reassembling) a concatenation of encoded frames recovers the
original content fragments in their original order. -/
theorem claim_C5_sse_framing_lossless :
    (∀ c₁ c₂ : String, c₁ = c₂ →
      DeepResearchUtils.create_sse_message c₁ = DeepResearchUtils.create_sse_message c₂) ∧
    (∀ c : String,
      DeepResearchCore.create_finalise_message c = DeepResearchUtils.create_sse_message c) ∧
    (∀ frags : List String,
      decodeFrames (concatAll (frags.map DeepResearchUtils.create_sse_message)) =
        some frags) := by
  refine ⟨fun c₁ c₂ h => by rw [h], fun c => rfl, fun frags => ?_⟩
  exact decodeFrames_concat frags

/-- Witness for C5 at concrete inputs: identical content yields identical
frames, and a two-fragment stream round-trips (the first fragment exercising
quotes, newlines and an astral-plane character in the escaper). -/
theorem claim_C5_witness :
    DeepResearchUtils.create_sse_message "a\"b\n\\😀" =
      DeepResearchUtils.create_sse_message "a\"b\n\\😀" ∧
    decodeFrames (concatAll (["a\"b\n\\😀", "done"].map
      DeepResearchUtils.create_sse_message)) = some ["a\"b\n\\😀", "done"] :=
  ⟨claim_C5_sse_framing_lossless.1 _ _ rfl,
   claim_C5_sse_framing_lossless.2.2 ["a\"b\n\\😀", "done"]⟩

/-! ## C6: sequential accumulation of `SearchContext` -/

namespace DeepResearchCore

theorem str_foldl_append (l : List String) :
    ∀ a : String, l.foldl (· ++ ·) a = a ++ l.foldl (· ++ ·) "" := by
  induction l with
  | nil => intro a; simp
  | cons x xs ih =>
    intro a
    simp only [List.foldl_cons]
    rw [ih ("" ++ x), ih (a ++ x)]
    simp [String.append_assoc]

theorem str_join_cons (x : String) (l : List String) :
    String.join (x :: l) = x ++ String.join l := by
  show List.foldl (· ++ ·) ("" ++ x) l = x ++ List.foldl (· ++ ·) "" l
  rw [str_foldl_append l ("" ++ x)]
  simp

theorem web_research_search_context_acc {α : Type} (search : String → α)
    (fmt : α → String) (queries : List String) :
    ∀ acc : String,
      queries.foldl (fun search_context query =>
        search_context ++ fmt (search query) ++ "\n") acc =
      acc ++ String.join (queries.map fun query => fmt (search query) ++ "\n") := by
  induction queries with
  | nil => intro acc; simp [String.join]
  | cons q qs ih =>
    intro acc
    simp only [List.foldl_cons, List.map_cons, str_join_cons]
    rw [ih]
    simp [String.append_assoc]

end DeepResearchCore

/-- **C6**: for every ordered list of queries, `search_context` is built by
sequential accumulation in query order — in general it is the concatenation,
in query order, of the formatted results each followed by the appended
newline; in particular for `["a", "b"]` it is the formatted results for `a`,
the newline, then the formatted results for `b`. -/
theorem claim_C6_search_order :
    (∀ {α : Type} (search : String → α) (fmt : α → String) (queries : List String),
      DeepResearchCore.web_research_search_context search fmt queries =
        String.join (queries.map fun query => fmt (search query) ++ "\n")) ∧
    (∀ {α : Type} (search : String → α) (fmt : α → String) (a b : String),
      DeepResearchCore.web_research_search_context search fmt [a, b] =
        fmt (search a) ++ "\n" ++ fmt (search b) ++ "\n") := by
  constructor
  · intro α search fmt queries
    unfold DeepResearchCore.web_research_search_context
    rw [DeepResearchCore.web_research_search_context_acc search fmt queries ""]
    simp
  · intro α search fmt a b
    unfold DeepResearchCore.web_research_search_context
    rw [DeepResearchCore.web_research_search_context_acc search fmt [a, b] ""]
    simp [String.join, String.append_assoc]

/-! ## C3 and C9: tool-call delta reassembly -/

/-- **C3**: streamed tool-call deltas keyed by the same index are reassembled
by concatenating name/arguments fragments in arrival order and taking the
last non-empty id: the delta sequence
`[{index:0, id:"a", function:{name:"sea"}}, {index:0, function:{name:"rch"}},
{index:0, function:{arguments:"{}"}}]` yields exactly the one tool call
`{id:"a", name:"search", arguments:"{}"}`, which passes the completeness
filter; and every reassembled call attached to the assistant message (the
`complete_tool_calls` filter) has a non-empty id and a non-empty name. -/
theorem claim_C3_tool_call_reassembly :
    (ResearchCore.accToolCallDeltas []
      [⟨some 0, some "a", some ⟨some "sea", Option.none⟩⟩,
       ⟨some 0, Option.none, some ⟨some "rch", Option.none⟩⟩,
       ⟨some 0, Option.none, some ⟨Option.none, some "\x7b\x7d"⟩⟩] =
      [⟨some "a", "search", "\x7b\x7d"⟩]) ∧
    (ResearchCore.completeToolCalls [⟨some "a", "search", "\x7b\x7d"⟩] =
      [⟨some "a", "search", "\x7b\x7d"⟩]) ∧
    (∀ (l : List ResearchCore.ToolCallAcc) (tc : ResearchCore.ToolCallAcc),
      tc ∈ ResearchCore.completeToolCalls l →
        (∃ s, tc.id = some s ∧ s ≠ "") ∧ tc.name ≠ "") := by
  refine ⟨by decide, by decide, fun l tc h => ?_⟩
  have hc : ResearchCore.isComplete tc = true :=
    (List.mem_filter.mp h).2
  unfold ResearchCore.isComplete at hc
  rw [Bool.and_eq_true] at hc
  obtain ⟨hid, hname⟩ := hc
  constructor
  · cases hi : tc.id with
    | none =>
      rw [hi] at hid
      simp [ResearchCore.optTruthy] at hid
    | some s =>
      rw [hi] at hid
      simp only [ResearchCore.optTruthy] at hid
      exact ⟨s, rfl, by simpa using hid⟩
  · simpa using hname

/-- Witness for C3: the completeness property applied to a concrete filtered
list. -/
theorem claim_C3_witness :
    (⟨some "a", "search", "\x7b\x7d"⟩ : ResearchCore.ToolCallAcc) ∈
      ResearchCore.completeToolCalls [⟨some "a", "search", "\x7b\x7d"⟩] ∧
    (∃ s, (⟨some "a", "search", "\x7b\x7d"⟩ : ResearchCore.ToolCallAcc).id = some s ∧
      s ≠ "") ∧
    (⟨some "a", "search", "\x7b\x7d"⟩ : ResearchCore.ToolCallAcc).name ≠ "" := by
  refine ⟨by decide, ?_⟩
  exact claim_C3_tool_call_reassembly.2.2 [⟨some "a", "search", "\x7b\x7d"⟩] _ (by decide)

/-- **C9**: a streamed tool-call delta with a null index is discarded
entirely, while a delta with index `k` pads the accumulated list with
placeholder entries (`{id: None, name: "", arguments: ""}`) up to position
`k`: positions below the old length (other than `k`) are untouched, the
padded positions hold the placeholder, and the delta's fragments land at
exactly index `k`. -/
theorem claim_C9_null_index_and_padding :
    (∀ (acc : List ResearchCore.ToolCallAcc) (d : ResearchCore.ToolCallDelta),
      d.index = Option.none → ResearchCore.applyToolCallDelta acc d = acc) ∧
    (∀ (acc : List ResearchCore.ToolCallAcc) (d : ResearchCore.ToolCallDelta) (i : Nat),
      d.index = some i →
      (ResearchCore.applyToolCallDelta acc d).length = max acc.length (i + 1) ∧
      (∀ j, j < acc.length → j ≠ i →
        (ResearchCore.applyToolCallDelta acc d)[j]? = acc[j]?) ∧
      (∀ j, acc.length ≤ j → j < i →
        (ResearchCore.applyToolCallDelta acc d)[j]? = some ResearchCore.placeholderCall) ∧
      (ResearchCore.applyToolCallDelta acc d)[i]? =
        some (ResearchCore.updateCall
          (if h : i < acc.length then acc[i] else ResearchCore.placeholderCall) d)) := by
  constructor
  · intro acc d hd
    simp [ResearchCore.applyToolCallDelta, hd]
  · intro acc d i hd
    simp only [ResearchCore.applyToolCallDelta, hd]
    have hlenpad : (ResearchCore.padCalls acc i).length = max acc.length (i + 1) := by
      simp [ResearchCore.padCalls]
      omega
    have hiL : i < (ResearchCore.padCalls acc i).length := by
      rw [hlenpad]; omega
    refine ⟨?_, ?_, ?_, ?_⟩
    · rw [List.length_set, hlenpad]
    · intro j hj hji
      rw [List.getElem?_set_ne (fun h => hji h.symm)]
      simp [ResearchCore.padCalls, List.getElem?_append, hj]
    · intro j hj hji
      rw [List.getElem?_set_ne (by omega)]
      have hrep : j - acc.length < i + 1 - acc.length := by omega
      simp [ResearchCore.padCalls, List.getElem?_append, Nat.not_lt.mpr hj,
        List.getElem?_replicate, hrep]
    · by_cases hi : i < acc.length
      · have hpi : (ResearchCore.padCalls acc i)[i]? = some acc[i] := by
          simp [ResearchCore.padCalls, List.getElem?_append, hi]
        simp [List.getElem?_set_self', hpi, List.getD_eq_getElem?_getD, hi]
      · have hrep : i - acc.length < i + 1 - acc.length := by omega
        have hpi : (ResearchCore.padCalls acc i)[i]? =
            some ResearchCore.placeholderCall := by
          simp [ResearchCore.padCalls, List.getElem?_append, hi,
            List.getElem?_replicate, hrep]
        simp [List.getElem?_set_self', hpi, List.getD_eq_getElem?_getD, hi]

/-! ## Lemmas on the deep-research loop -/

namespace DeepResearchCore

@[simp] theorem isErr_notify (s : String) : DEvent.isErr (.notify s) = false := rfl

@[simp] theorem isErr_results (qs : List String) : DEvent.isErr (.results qs) = false := rfl

@[simp] theorem isErr_content (s : String) : DEvent.isErr (.content s) = false := rfl

@[simp] theorem isErr_done : DEvent.isErr .done = false := rfl

@[simp] theorem isErr_error (s : String) : DEvent.isErr (.error s) = true := rfl

@[simp] theorem isRoundStart_notify (s : String) :
    isRoundStart (.notify s) = (s == "Starting web research...") := rfl

@[simp] theorem isRoundStart_results (qs : List String) :
    isRoundStart (.results qs) = false := rfl

@[simp] theorem isRoundStart_content (s : String) :
    isRoundStart (.content s) = false := rfl

@[simp] theorem isRoundStart_error (s : String) : isRoundStart (.error s) = false := rfl

@[simp] theorem isRoundStart_done : isRoundStart .done = false := rfl

theorem countP_map_content (p : DEvent → Bool) (hp : ∀ s, p (.content s) = false)
    (l : List String) : (l.map DEvent.content).countP p = 0 := by
  induction l with
  | nil => rfl
  | cons x xs ih => simp [List.countP_cons, hp, ih]

/-- Round-count bound and error-freeness of the refinement loop's events. -/
theorem deepLoopRun_counts (env : DeepEnv) :
    ∀ n loop : Nat, 3 - loop ≤ n → ∀ (r : PyVal) (s : String),
      (deepLoopRun env r s loop).1.countP isRoundStart ≤ 3 - loop ∧
      (deepLoopRun env r s loop).1.countP DEvent.isErr = 0 := by
  intro n
  induction n with
  | zero =>
    intro loop hl r s
    rw [deepLoopRun.eq_def]
    split
    · simp
    · rw [dif_neg (by omega)]
      simp
  | succ n ih =>
    intro loop hl r s
    rw [deepLoopRun.eq_def]
    split
    · simp
    · next suff heq =>
      split
      · next hg =>
        split
        · constructor
          · simp
            omega
          · simp
        · next fq hfq =>
          split
          · constructor
            · simp
              omega
            · simp
          · next s' hws =>
            split
            · constructor
              · simp
                omega
              · simp
            · next p hp =>
              have hrec := ih (loop + 1) (by omega) p s'
              constructor
              · simp only [List.countP_cons, isRoundStart_notify]
                simp
                omega
              · simp only [List.countP_cons, isErr_notify]
                simp [hrec.2]
      · simp

/-- When every reflection is present-but-insufficient and the collaborators
never raise, the refinement loop performs exactly `3 - loop` further rounds
and completes normally. -/
theorem deepLoopRun_insufficient (env : DeepEnv)
    (hweb : ∀ k qs, ∃ s, env.webResearch k qs = Except.ok s)
    (hrefl : ∀ k s, ∃ p, env.reflect k s = Except.ok p ∧
      (∃ v, pySubscript p "is_sufficient" = Except.ok v ∧ pyTruthy v = false) ∧
      (∃ fq, pySubscript p "follow_up_queries" = Except.ok fq)) :
    ∀ n loop : Nat, 3 - loop ≤ n → ∀ (r : PyVal) (s : String),
      (∃ v, pySubscript r "is_sufficient" = Except.ok v ∧ pyTruthy v = false) →
      (∃ fq, pySubscript r "follow_up_queries" = Except.ok fq) →
      (deepLoopRun env r s loop).1.countP isRoundStart = 3 - loop ∧
      ∃ s', (deepLoopRun env r s loop).2 = Except.ok s' := by
  intro n
  induction n with
  | zero =>
    intro loop hl r s hsuff hfq
    obtain ⟨v, hv, hvf⟩ := hsuff
    rw [deepLoopRun.eq_def, hv]
    have hcond : ¬(pyTruthy v = false ∧ loop < 3) := by omega
    simp only [dif_neg hcond]
    refine ⟨by simpa using by omega, ⟨s, rfl⟩⟩
  | succ n ih =>
    intro loop hl r s hsuff hfq
    obtain ⟨v, hv, hvf⟩ := hsuff
    obtain ⟨fq, hfq'⟩ := hfq
    rw [deepLoopRun.eq_def, hv]
    by_cases h3 : loop < 3
    · simp only [dif_pos (And.intro hvf h3), hfq']
      obtain ⟨s', hws⟩ := hweb (loop + 1) fq
      simp only [hws]
      obtain ⟨p, hp, hpsuff, hpfq⟩ := hrefl (loop + 1) s'
      simp only [hp]
      have hrec := ih (loop + 1) (by omega) p s' hpsuff hpfq
      constructor
      · simp only [List.countP_cons]
        simp [hrec.1]
        omega
      · exact hrec.2
    · have hcond : ¬(pyTruthy v = false ∧ loop < 3) := by omega
      simp only [dif_neg hcond]
      refine ⟨by simpa using by omega, ⟨s, rfl⟩⟩

/-- The try-block body yields at most 4 round-start notifications and no
error events. -/
theorem deepBody_counts (env : DeepEnv) :
    (deepBody env).1.countP isRoundStart ≤ 4 ∧
    (deepBody env).1.countP DEvent.isErr = 0 := by
  rcases hg : env.genQuery with m | q
  · constructor <;> simp [deepBody, hg]
  · rcases hw : env.webResearch 0 (PyVal.list (q.query.map PyVal.str)) with m | ss
    · constructor <;> simp [deepBody, hg, hw]
    · rcases hr : env.reflect 0 ss with m | rr
      · constructor <;> simp [deepBody, hg, hw, hr]
      · have hloop := deepLoopRun_counts env 3 0 (by omega) rr ss
        rcases hl2 : (deepLoopRun env rr ss 0).2 with m | fs
        · constructor
          · simp [deepBody, hg, hw, hr, hl2, List.countP_append]
            omega
          · simp [deepBody, hg, hw, hr, hl2, List.countP_append, hloop.2]
        · constructor
          · simp [deepBody, hg, hw, hr, hl2, List.countP_append,
              countP_map_content isRoundStart (fun _ => rfl)]
            omega
          · simp [deepBody, hg, hw, hr, hl2, List.countP_append, hloop.2,
              countP_map_content DEvent.isErr (fun _ => rfl)]

/-- The stream is the body's events followed by the error/done tail. -/
theorem deep_research_stream_eq (env : DeepEnv) :
    deep_research_stream env = (deepBody env).1 ++
      (match (deepBody env).2 with
       | some m => [DEvent.error ("An error occurred: " ++ m), DEvent.done]
       | Option.none => [DEvent.done]) := by
  unfold deep_research_stream
  rcases h : deepBody env with ⟨evts, err⟩
  cases err <;> simp

/-- Round-start count of the whole stream equals that of the body. -/
theorem webRounds_stream (env : DeepEnv) :
    webRounds (deep_research_stream env) = (deepBody env).1.countP isRoundStart := by
  rw [webRounds, deep_research_stream_eq, List.countP_append]
  cases (deepBody env).2 <;> simp

end DeepResearchCore

/-- **C1**: with the default configuration (`max_search_loop = 3`), a run of
the fixed deep-research pipeline in which every reflection result has a
falsy `is_sufficient` (and no step raises) performs exactly
`max_search_loop + 1 = 4` WebResearch/Reflect rounds, and no run whatsoever
performs more — the loop always terminates. -/
theorem claim_C1_loop_bound :
    Config.max_search_loop = 3 ∧
    (∀ env : DeepResearchCore.DeepEnv,
      DeepResearchCore.webRounds (DeepResearchCore.deep_research_stream env) ≤
        Config.max_search_loop + 1) ∧
    (∀ env : DeepResearchCore.DeepEnv,
      (∃ q, env.genQuery = Except.ok q) →
      (∀ k qs, ∃ s, env.webResearch k qs = Except.ok s) →
      (∀ k s, ∃ p, env.reflect k s = Except.ok p ∧
        (∃ v, pySubscript p "is_sufficient" = Except.ok v ∧ pyTruthy v = false) ∧
        (∃ fq, pySubscript p "follow_up_queries" = Except.ok fq)) →
      DeepResearchCore.webRounds (DeepResearchCore.deep_research_stream env) =
        Config.max_search_loop + 1) := by
  refine ⟨rfl, ?_, ?_⟩
  · intro env
    rw [DeepResearchCore.webRounds_stream]
    have h := DeepResearchCore.deepBody_counts env
    show _ ≤ 3 + 1
    omega
  · intro env hgen hweb hrefl
    rw [DeepResearchCore.webRounds_stream]
    obtain ⟨q, hq⟩ := hgen
    unfold DeepResearchCore.deepBody
    simp only [hq]
    obtain ⟨s0, hw0⟩ := hweb 0 (PyVal.list (q.query.map PyVal.str))
    simp only [hw0]
    obtain ⟨p, hp, hpsuff, hpfq⟩ := hrefl 0 s0
    simp only [hp]
    have hloop := DeepResearchCore.deepLoopRun_insufficient env hweb hrefl 3 0 (by omega)
      p s0 hpsuff hpfq
    obtain ⟨s', hs'⟩ := hloop.2
    simp only [hs']
    simp only [List.countP_append, List.countP_cons, List.countP_nil]
    simp [hloop.1, Config.max_search_loop,
      DeepResearchCore.countP_map_content DeepResearchCore.isRoundStart (fun _ => rfl)]

/-- Witness for C1: a concrete environment whose reflections are always
insufficient performs exactly 4 rounds. -/
theorem claim_C1_witness :
    DeepResearchCore.webRounds (DeepResearchCore.deep_research_stream
      { genQuery := Except.ok ⟨"rationale", ["q1"]⟩
        webResearch := fun _ _ => Except.ok "summary"
        reflect := fun _ _ => Except.ok (PyVal.dict
          [("is_sufficient", PyVal.bool false),
           ("follow_up_queries", PyVal.list [PyVal.str "f1"])])
        finalize := fun _ => ([some "answer"], Option.none) }) =
      Config.max_search_loop + 1 :=
  claim_C1_loop_bound.2.2 _ ⟨_, rfl⟩ (fun _ _ => ⟨"summary", rfl⟩)
    (fun _ _ => ⟨PyVal.dict [("is_sufficient", PyVal.bool false),
        ("follow_up_queries", PyVal.list [PyVal.str "f1"])], rfl,
      ⟨PyVal.bool false, rfl, rfl⟩, ⟨PyVal.list [PyVal.str "f1"], rfl⟩⟩)

/-- **C4**: a reflection payload lacking the `is_sufficient` key is a hard
data error: the loop-condition subscript raises (`KeyError`, whose message
is `'is_sufficient'`), the run aborts with exactly one Error event followed
by the Done sentinel, and the missing key is never treated as "insufficient"
— no further WebResearch/Reflect round is performed beyond the one already
completed. -/
theorem claim_C4_missing_is_sufficient :
    ∀ (env : DeepResearchCore.DeepEnv) (q : DeepResearchCore.GenerateQueryData)
      (s₀ : String) (d : List (String × PyVal)),
      env.genQuery = Except.ok q →
      env.webResearch 0 (PyVal.list (q.query.map PyVal.str)) = Except.ok s₀ →
      env.reflect 0 s₀ = Except.ok (PyVal.dict d) →
      d.lookup "is_sufficient" = Option.none →
      DeepResearchCore.deep_research_stream env =
        [.notify "Starting query generation...", .notify "Finished query generation",
         .results q.query, .notify "Starting web research...",
         .notify "Finished web research", .notify "Starting reflection...",
         .notify "Finished reflection...",
         .error "An error occurred: 'is_sufficient'", .done] ∧
      DeepResearchCore.webRounds (DeepResearchCore.deep_research_stream env) = 1 ∧
      (DeepResearchCore.deep_research_stream env).countP
        DeepResearchCore.DEvent.isErr = 1 := by
  intro env q s₀ d hq hw hr hmiss
  have hsub : pySubscript (PyVal.dict d) "is_sufficient" =
      Except.error "'is_sufficient'" := by
    simp [pySubscript, hmiss]
  have hloop : DeepResearchCore.deepLoopRun env (PyVal.dict d) s₀ 0 =
      ([], Except.error "'is_sufficient'") := by
    rw [DeepResearchCore.deepLoopRun.eq_def, hsub]
  have hbody : DeepResearchCore.deepBody env =
      ([.notify "Starting query generation...", .notify "Finished query generation",
        .results q.query, .notify "Starting web research...",
        .notify "Finished web research", .notify "Starting reflection...",
        .notify "Finished reflection..."], some "'is_sufficient'") := by
    unfold DeepResearchCore.deepBody
    simp [hq, hw, hr, hloop]
  have hstream : DeepResearchCore.deep_research_stream env =
      [.notify "Starting query generation...", .notify "Finished query generation",
       .results q.query, .notify "Starting web research...",
       .notify "Finished web research", .notify "Starting reflection...",
       .notify "Finished reflection...",
       .error "An error occurred: 'is_sufficient'", .done] := by
    unfold DeepResearchCore.deep_research_stream
    rw [hbody]
    rfl
  refine ⟨hstream, ?_, ?_⟩
  · rw [DeepResearchCore.webRounds, hstream]
    simp [List.countP_cons]
  · rw [hstream]
    simp [List.countP_cons]

/-- Witness for C4: a concrete environment whose first reflection payload
lacks `is_sufficient` aborts with one error frame and performs exactly one
round. -/
theorem claim_C4_witness :
    DeepResearchCore.deep_research_stream
      { genQuery := Except.ok ⟨"rationale", ["q1"]⟩
        webResearch := fun _ _ => Except.ok "summary"
        reflect := fun _ _ => Except.ok (PyVal.dict [("knowledge_gap", PyVal.str "g")])
        finalize := fun _ => ([some "answer"], Option.none) } =
      [.notify "Starting query generation...", .notify "Finished query generation",
       .results ["q1"], .notify "Starting web research...",
       .notify "Finished web research", .notify "Starting reflection...",
       .notify "Finished reflection...",
       .error "An error occurred: 'is_sufficient'", .done] :=
  (claim_C4_missing_is_sufficient _ ⟨"rationale", ["q1"]⟩ "summary"
    [("knowledge_gap", PyVal.str "g")] rfl rfl rfl rfl).1

/-! ## Lemmas on the tool-calling research loop -/

namespace ResearchCore

@[simp] theorem risErr_notify (s : String) : REvent.isErr (.notify s) = false := rfl

@[simp] theorem risErr_content (s : String) : REvent.isErr (.content s) = false := rfl

@[simp] theorem risErr_done : REvent.isErr .done = false := rfl

@[simp] theorem risErr_error (s : String) : REvent.isErr (.error s) = true := rfl

@[simp] theorem isModelTurn_content (s : String) : isModelTurn (.content s) = false := rfl

@[simp] theorem isModelTurn_error (s : String) : isModelTurn (.error s) = false := rfl

@[simp] theorem isModelTurn_done : isModelTurn .done = false := rfl

theorem listStartsWith_append_of (p l : List Char) (h : listStartsWith p l = true)
    (r : List Char) : listStartsWith p (l ++ r) = true := by
  induction p generalizing l with
  | nil => rfl
  | cons a as ih =>
    cases l with
    | nil => simp [listStartsWith] at h
    | cons b bs =>
      simp only [listStartsWith, Bool.and_eq_true] at h
      simp only [List.cons_append, listStartsWith, Bool.and_eq_true]
      exact ⟨h.1, ih bs h.2⟩

theorem listStartsWith_append_false (p l : List Char) (hlen : p.length ≤ l.length)
    (h : listStartsWith p l = false) (r : List Char) :
    listStartsWith p (l ++ r) = false := by
  induction p generalizing l with
  | nil => simp [listStartsWith] at h
  | cons a as ih =>
    cases l with
    | nil => simp at hlen
    | cons b bs =>
      simp only [listStartsWith, Bool.and_eq_false_iff] at h
      simp only [List.cons_append, listStartsWith, Bool.and_eq_false_iff]
      rcases h with h | h
      · exact Or.inl h
      · exact Or.inr (ih bs (by simpa using hlen) h)

@[simp] theorem isModelTurn_thinking (x y : String) :
    isModelTurn (.notify ("[NOTIFY] Thinking... (iteration " ++ x ++ y)) = true := by
  show listStartsWith _ _ = true
  rw [String.append_assoc, String.data_append]
  exact listStartsWith_append_of _ _ (by decide) _

@[simp] theorem isModelTurn_executing (x y : String) :
    isModelTurn (.notify ("[NOTIFY] Executing " ++ x ++ y)) = false := by
  show listStartsWith _ _ = false
  rw [String.append_assoc, String.data_append]
  exact listStartsWith_append_false _ _ (by decide) (by decide) _

@[simp] theorem isModelTurn_calling (x y : String) :
    isModelTurn (.notify ("[NOTIFY] Calling " ++ x ++ y)) = false := by
  show listStartsWith _ _ = false
  rw [String.append_assoc, String.data_append]
  exact listStartsWith_append_false _ _ (by decide) (by decide) _

@[simp] theorem isModelTurn_completed (x y : String) :
    isModelTurn (.notify ("[NOTIFY] Completed " ++ x ++ y)) = false := by
  show listStartsWith _ _ = false
  rw [String.append_assoc, String.data_append]
  exact listStartsWith_append_false _ _ (by decide) (by decide) _

@[simp] theorem isModelTurn_fetching :
    isModelTurn (.notify "[NOTIFY] Fetching available tools...\n\n") = false := by
  decide

theorem countP_map_rcontent (p : REvent → Bool) (hp : ∀ s, p (.content s) = false)
    (l : List String) : (l.map REvent.content).countP p = 0 := by
  induction l with
  | nil => rfl
  | cons x xs ih => simp [List.countP_cons, hp, ih]

/-- Tool-execution events are notifications: no error frames, no model-turn
notifications. -/
theorem execToolCalls_counts (env : REnv) :
    ∀ (tcs : List ToolCallAcc) (conv : List Msg) (ctr : Nat),
      (execToolCalls env tcs conv ctr).1.countP REvent.isErr = 0 ∧
      (execToolCalls env tcs conv ctr).1.countP isModelTurn = 0 := by
  intro tcs
  induction tcs with
  | nil => intro conv ctr; exact ⟨rfl, rfl⟩
  | cons tc rest ih =>
    intro conv ctr
    rcases hj : env.jsonLoads tc.arguments with m | args
    · simp [execToolCalls, hj]
    · rcases hf : ResearchUtils.format_tool_result tc.name (env.toolResult ctr)
        with m | formatted
      · simp [execToolCalls, hj, hf]
      · obtain ⟨h1, h2⟩ :=
          ih (conv ++ [(⟨"tool", some formatted, Option.none, tc.id⟩ : Msg)]) (ctr + 1)
        simp [execToolCalls, hj, hf, List.countP_cons, h1, h2]

theorem execToolCalls_countErr (env : REnv) (tcs : List ToolCallAcc) (conv : List Msg)
    (ctr : Nat) : (execToolCalls env tcs conv ctr).1.countP REvent.isErr = 0 :=
  (execToolCalls_counts env tcs conv ctr).1

theorem execToolCalls_countTurn (env : REnv) (tcs : List ToolCallAcc) (conv : List Msg)
    (ctr : Nat) : (execToolCalls env tcs conv ctr).1.countP isModelTurn = 0 :=
  (execToolCalls_counts env tcs conv ctr).2

theorem countP_map_rcontent_err (l : List String) :
    (l.map REvent.content).countP REvent.isErr = 0 :=
  countP_map_rcontent _ (fun _ => rfl) l

theorem countP_map_rcontent_turn (l : List String) :
    (l.map REvent.content).countP isModelTurn = 0 :=
  countP_map_rcontent _ (fun _ => rfl) l

/-- Each iteration yields exactly one model-turn notification and no error
frames. -/
theorem runIter_counts (env : REnv) (conv : List Msg) (ctr iter : Nat) :
    (runIter env conv ctr iter).events.countP REvent.isErr = 0 ∧
    (runIter env conv ctr iter).events.countP isModelTurn = 1 := by
  unfold runIter
  rcases hst : env.streamAt iter with ⟨chunks, serr⟩
  simp only [hst]
  cases serr with
  | some m =>
    simp [IterOut.events, List.countP_cons, countP_map_rcontent_err,
      countP_map_rcontent_turn]
  | none =>
    by_cases htools : (streamToolCalls chunks).isEmpty
    · simp [IterOut.events, htools, List.countP_cons, countP_map_rcontent_err,
        countP_map_rcontent_turn]
    · by_cases hcomp : (completeToolCalls (streamToolCalls chunks)).isEmpty
      · simp [IterOut.events, htools, hcomp, List.countP_cons,
          countP_map_rcontent_err, countP_map_rcontent_turn]
      · simp only [htools, hcomp, if_false, Bool.false_eq_true, ite_false,
          Option.getD_some]
        split
        · simp [IterOut.events, List.countP_cons, List.countP_append,
            countP_map_rcontent_err, countP_map_rcontent_turn,
            execToolCalls_countErr, execToolCalls_countTurn]
        · simp [IterOut.events, List.countP_cons, List.countP_append,
            countP_map_rcontent_err, countP_map_rcontent_turn,
            execToolCalls_countErr, execToolCalls_countTurn]

/-- Model-turn bound and error-freeness of the loop's events. -/
theorem researchLoopRun_counts (env : REnv) :
    ∀ n iteration : Nat, 10 - iteration ≤ n → ∀ (conv : List Msg) (ctr : Nat),
      (researchLoopRun env conv ctr iteration).1.countP isModelTurn ≤ 10 - iteration ∧
      (researchLoopRun env conv ctr iteration).1.countP REvent.isErr = 0 := by
  intro n
  induction n with
  | zero =>
    intro iteration hl conv ctr
    rw [researchLoopRun.eq_def, dif_neg (by omega)]
    simp
  | succ n ih =>
    intro iteration hl conv ctr
    by_cases h10 : iteration < 10
    · rw [researchLoopRun.eq_def, dif_pos h10]
      obtain ⟨hitE, hitT⟩ := runIter_counts env conv ctr (iteration + 1)
      split
      · next evts conv' m heq =>
        rw [heq] at hitE hitT
        simp only [IterOut.events] at hitE hitT
        refine ⟨?_, ?_⟩
        · show evts.countP isModelTurn ≤ 10 - iteration
          omega
        · show evts.countP REvent.isErr = 0
          exact hitE
      · next evts conv' heq =>
        rw [heq] at hitE hitT
        simp only [IterOut.events] at hitE hitT
        refine ⟨?_, ?_⟩
        · show evts.countP isModelTurn ≤ 10 - iteration
          omega
        · show evts.countP REvent.isErr = 0
          exact hitE
      · next evts conv' ctr' heq =>
        rw [heq] at hitE hitT
        simp only [IterOut.events] at hitE hitT
        obtain ⟨hT, hE⟩ := ih (iteration + 1) (by omega) conv' ctr'
        constructor
        · simp only [List.countP_append]
          omega
        · simp only [List.countP_append]
          omega
    · rw [researchLoopRun.eq_def, dif_neg h10]
      simp

/-- When every reachable iteration continues (tool calls every turn, no
exception), the loop performs exactly the remaining number of model turns
and completes without an exception. -/
theorem researchLoopRun_cap (env : REnv)
    (hcont : ∀ k (conv : List Msg) (ctr : Nat), 1 ≤ k → k ≤ 10 →
      ∃ evts conv' ctr', runIter env conv ctr k = .continued evts conv' ctr') :
    ∀ n iteration : Nat, 10 - iteration ≤ n → ∀ (conv : List Msg) (ctr : Nat),
      (researchLoopRun env conv ctr iteration).1.countP isModelTurn = 10 - iteration ∧
      (researchLoopRun env conv ctr iteration).2.2 = Option.none := by
  intro n
  induction n with
  | zero =>
    intro iteration hl conv ctr
    rw [researchLoopRun.eq_def, dif_neg (by omega)]
    constructor
    · simp
      omega
    · rfl
  | succ n ih =>
    intro iteration hl conv ctr
    by_cases h10 : iteration < 10
    · obtain ⟨evts, conv', ctr', heq⟩ :=
        hcont (iteration + 1) conv ctr (by omega) (by omega)
      rw [researchLoopRun.eq_def, dif_pos h10, heq]
      obtain ⟨hitE, hitT⟩ := runIter_counts env conv ctr (iteration + 1)
      rw [heq] at hitE hitT
      simp only [IterOut.events] at hitE hitT
      obtain ⟨hT, hE⟩ := ih (iteration + 1) (by omega) conv' ctr'
      constructor
      · simp only [List.countP_append]
        omega
      · exact hE
    · rw [researchLoopRun.eq_def, dif_neg h10]
      constructor
      · simp
        omega
      · rfl

/-- The stream of `research_chat` is the fetch-tools notification, the
loop's events, then the error/done tail. -/
theorem research_chat_eq (env : REnv) (messages : List Msg) :
    research_chat env messages =
      .notify "[NOTIFY] Fetching available tools...\n\n" ::
        (researchLoopRun env
          ((⟨"system", some env.systemContent, Option.none, Option.none⟩ : Msg) ::
            messages) 0 0).1 ++
        (match (researchLoopRun env
            ((⟨"system", some env.systemContent, Option.none, Option.none⟩ : Msg) ::
              messages) 0 0).2.2 with
         | some m => [.error ("[ERROR] An error occurred: " ++ m), .done]
         | Option.none => [.done]) := by
  unfold research_chat
  rcases h : (researchLoopRun env
      ((⟨"system", some env.systemContent, Option.none, Option.none⟩ : Msg) ::
        messages) 0 0).2.2 with m | m <;> simp [h]

end ResearchCore

theorem getLast?_cons_append {α : Type} (a : α) (l t : List α) (x : α)
    (ht : t.getLast? = some x) : (a :: (l ++ t)).getLast? = some x := by
  rw [show a :: (l ++ t) = (a :: l) ++ t from rfl, List.getLast?_append, ht]
  rfl

/-- **C2**: every run of either research controller ends with the literal
bytes `data: [DONE]\n\n` as the last emitted frame, and if an exception is
raised during the run, exactly one Error event carrying the exception's
message is emitted, immediately before that terminal sentinel. -/
theorem claim_C2_done_sentinel_and_single_error :
    (∀ env : DeepResearchCore.DeepEnv,
      ((DeepResearchCore.deep_research_stream env).map
          DeepResearchCore.encodeDEvent).getLast? = some "data: [DONE]\n\n" ∧
      (∀ m, (DeepResearchCore.deepBody env).2 = some m →
        DeepResearchCore.deep_research_stream env = (DeepResearchCore.deepBody env).1 ++
          [.error ("An error occurred: " ++ m), .done] ∧
        (DeepResearchCore.deep_research_stream env).countP
          DeepResearchCore.DEvent.isErr = 1) ∧
      ((DeepResearchCore.deepBody env).2 = Option.none →
        (DeepResearchCore.deep_research_stream env).countP
          DeepResearchCore.DEvent.isErr = 0)) ∧
    (∀ (env : ResearchCore.REnv) (messages : List ResearchCore.Msg),
      ((ResearchCore.research_chat env messages).map
          ResearchCore.encodeREvent).getLast? = some "data: [DONE]\n\n" ∧
      (∀ m, (ResearchCore.researchLoopRun env
            ((⟨"system", some env.systemContent, Option.none, Option.none⟩ :
              ResearchCore.Msg) :: messages) 0 0).2.2 = some m →
        ResearchCore.research_chat env messages =
          .notify "[NOTIFY] Fetching available tools...\n\n" ::
            (ResearchCore.researchLoopRun env
              ((⟨"system", some env.systemContent, Option.none, Option.none⟩ :
                ResearchCore.Msg) :: messages) 0 0).1 ++
            [.error ("[ERROR] An error occurred: " ++ m), .done] ∧
        (ResearchCore.research_chat env messages).countP
          ResearchCore.REvent.isErr = 1) ∧
      ((ResearchCore.researchLoopRun env
            ((⟨"system", some env.systemContent, Option.none, Option.none⟩ :
              ResearchCore.Msg) :: messages) 0 0).2.2 = Option.none →
        (ResearchCore.research_chat env messages).countP
          ResearchCore.REvent.isErr = 0)) := by
  constructor
  · intro env
    have hstream := DeepResearchCore.deep_research_stream_eq env
    have hbody := DeepResearchCore.deepBody_counts env
    refine ⟨?_, ?_, ?_⟩
    · rw [hstream]
      rcases (DeepResearchCore.deepBody env).2 with m | m <;>
        · rw [List.map_append, List.getLast?_append]
          rfl
    · intro m hm
      rw [hstream, hm]
      refine ⟨rfl, ?_⟩
      simp [List.countP_append, hbody.2, List.countP_cons]
    · intro hm
      rw [hstream, hm]
      simp [List.countP_append, hbody.2]
  · intro env messages
    have hstream := ResearchCore.research_chat_eq env messages
    have hloop := ResearchCore.researchLoopRun_counts env 10 0 (by omega)
      ((⟨"system", some env.systemContent, Option.none, Option.none⟩ :
        ResearchCore.Msg) :: messages) 0
    refine ⟨?_, ?_, ?_⟩
    · rw [hstream]
      rcases (ResearchCore.researchLoopRun env
          ((⟨"system", some env.systemContent, Option.none, Option.none⟩ :
            ResearchCore.Msg) :: messages) 0 0).2.2 with m | m <;>
        · simp only [List.map_cons, List.map_append]
          exact getLast?_cons_append _ _ _ _ rfl
    · intro m hm
      rw [hstream, hm]
      refine ⟨rfl, ?_⟩
      simp [List.countP_append, List.countP_cons, hloop.2]
    · intro hm
      rw [hstream, hm]
      simp [List.countP_append, List.countP_cons, hloop.2]

/-- Witness for C2: a deep-research run whose query generation raises
`boom`, and a tool-calling run whose first streaming completion raises
`net down` — each aborts with one error frame directly before the Done
sentinel. -/
theorem claim_C2_witness :
    DeepResearchCore.deep_research_stream
      { genQuery := Except.error "boom"
        webResearch := fun _ _ => Except.ok "s"
        reflect := fun _ _ => Except.ok PyVal.none
        finalize := fun _ => ([], Option.none) } =
      [.notify "Starting query generation...",
       .error "An error occurred: boom", .done] ∧
    ResearchCore.research_chat
      { systemContent := "sys"
        streamAt := fun _ => ([], some "net down")
        jsonLoads := fun _ => Except.ok PyVal.none
        toolResult := fun _ => Option.none } [] =
      [.notify "[NOTIFY] Fetching available tools...\n\n",
       .notify "[NOTIFY] Thinking... (iteration 1)\n\n",
       .error "[ERROR] An error occurred: net down", .done] := by
  constructor
  · have h := (claim_C2_done_sentinel_and_single_error.1
      { genQuery := Except.error "boom"
        webResearch := fun _ _ => Except.ok "s"
        reflect := fun _ _ => Except.ok PyVal.none
        finalize := fun _ => ([], Option.none) }).2.1 "boom" rfl
    exact h.1
  · have h := (claim_C2_done_sentinel_and_single_error.2
      { systemContent := "sys"
        streamAt := fun _ => ([], some "net down")
        jsonLoads := fun _ => Except.ok PyVal.none
        toolResult := fun _ => Option.none } []).2.1 "net down" (by
          rw [ResearchCore.researchLoopRun.eq_def]
          rfl)
    rw [h.1]
    rw [ResearchCore.researchLoopRun.eq_def]
    rfl

theorem lookup_any_key {β : Type} (d : List (String × β)) (key : String) (e : β)
    (h : d.lookup key = some e) : (d.any fun p => p.1 == key) = true := by
  induction d with
  | nil => simp [List.lookup] at h
  | cons kv rest ih =>
    rcases kv with ⟨k, v⟩
    rw [List.lookup] at h
    by_cases hk : key == k
    · have hkeq : k = key := (eq_of_beq hk).symm
      simp [hkeq]
    · have hfalse : (key == k) = false := by simpa using hk
      rw [hfalse] at h
      have h' : List.lookup key rest = some e := h
      simp [ih h']

/-- **C7**: a tool invocation that yields an error payload is never fatal:
the per-call loop formats the error into the display string
`Error calling <name>: <error>`, appends it to the conversation as a
tool-role message carrying the matching `tool_call_id`, and introduces no
exception of its own; and whenever an iteration ends in the `continued`
state, the loop recurses into the next model turn rather than aborting. -/
theorem claim_C7_tool_error_not_fatal :
    (∀ (env : ResearchCore.REnv) (tc : ResearchCore.ToolCallAcc)
       (rest : List ResearchCore.ToolCallAcc) (conv : List ResearchCore.Msg)
       (ctr : Nat) (args : PyVal) (d : List (String × PyVal)) (e : PyVal),
      env.jsonLoads tc.arguments = Except.ok args →
      env.toolResult ctr = some (PyVal.dict d) →
      d.lookup "error" = some e →
      ResearchCore.execToolCalls env (tc :: rest) conv ctr =
        (let r := ResearchCore.execToolCalls env rest
          (conv ++ [(⟨"tool", some ("Error calling " ++ tc.name ++ ": " ++ pyStr e),
            Option.none, tc.id⟩ : ResearchCore.Msg)]) (ctr + 1)
         (.notify ("[NOTIFY] Calling " ++ tc.name ++ "...\n\n") ::
          .notify ("[NOTIFY] Completed " ++ tc.name ++ "\n\n") :: r.1,
          r.2.1, r.2.2.1, r.2.2.2))) ∧
    (∀ (env : ResearchCore.REnv) (conv : List ResearchCore.Msg)
       (ctr iteration : Nat) (evts : List ResearchCore.REvent)
       (conv' : List ResearchCore.Msg) (ctr' : Nat),
      iteration < 10 →
      ResearchCore.runIter env conv ctr (iteration + 1) =
        ResearchCore.IterOut.continued evts conv' ctr' →
      ResearchCore.researchLoopRun env conv ctr iteration =
        (evts ++ (ResearchCore.researchLoopRun env conv' ctr' (iteration + 1)).1,
         (ResearchCore.researchLoopRun env conv' ctr' (iteration + 1)).2.1,
         (ResearchCore.researchLoopRun env conv' ctr' (iteration + 1)).2.2)) := by
  constructor
  · intro env tc rest conv ctr args d e hj hres hlook
    have hany : (d.any fun p => p.1 == "error") = true := lookup_any_key d "error" e hlook
    have hfmt : ResearchUtils.format_tool_result tc.name (some (PyVal.dict d)) =
        Except.ok ("Error calling " ++ tc.name ++ ": " ++ pyStr e) := by
      unfold ResearchUtils.format_tool_result
      simp [pyContainsKey, hany, pySubscript, hlook]
    simp [ResearchCore.execToolCalls, hj, hres, hfmt]
  · intro env conv ctr iteration evts conv' ctr' h10 hiter
    rw [ResearchCore.researchLoopRun.eq_def, dif_pos h10, hiter]

/-- Witness for C7: a concrete run in which the single requested tool call
returns the error payload `{"error": "boom"}` — the formatted error lands in
the conversation as a tool message and the loop proceeds to iteration 2. -/
theorem claim_C7_witness :
    let env : ResearchCore.REnv :=
      { systemContent := "sys"
        streamAt := fun _ =>
          ([⟨Option.none, [⟨some 0, some "a", some ⟨some "search", some "\x7b\x7d"⟩⟩],
            Option.none⟩], Option.none)
        jsonLoads := fun _ => Except.ok PyVal.none
        toolResult := fun _ => some (PyVal.dict [("error", PyVal.str "boom")]) }
    ResearchCore.execToolCalls env [⟨some "a", "search", "\x7b\x7d"⟩] [] 0 =
      ([.notify "[NOTIFY] Calling search...\n\n", .notify "[NOTIFY] Completed search\n\n"],
       [(⟨"tool", some "Error calling search: boom", Option.none, some "a"⟩ :
          ResearchCore.Msg)], 1, Option.none) ∧
    ResearchCore.researchLoopRun env [] 0 9 =
      (([.notify "[NOTIFY] Thinking... (iteration 10)\n\n",
         .notify "[NOTIFY] Executing 1 tool call(s)...\n\n",
         .notify "[NOTIFY] Calling search...\n\n",
         .notify "[NOTIFY] Completed search\n\n"] : List ResearchCore.REvent) ++
        (ResearchCore.researchLoopRun env
          [(⟨"assistant", Option.none, some [⟨some "a", "search", "\x7b\x7d"⟩],
             Option.none⟩ : ResearchCore.Msg),
           (⟨"tool", some "Error calling search: boom", Option.none, some "a"⟩ :
             ResearchCore.Msg)] 1 10).1,
       (ResearchCore.researchLoopRun env
          [(⟨"assistant", Option.none, some [⟨some "a", "search", "\x7b\x7d"⟩],
             Option.none⟩ : ResearchCore.Msg),
           (⟨"tool", some "Error calling search: boom", Option.none, some "a"⟩ :
             ResearchCore.Msg)] 1 10).2.1,
       (ResearchCore.researchLoopRun env
          [(⟨"assistant", Option.none, some [⟨some "a", "search", "\x7b\x7d"⟩],
             Option.none⟩ : ResearchCore.Msg),
           (⟨"tool", some "Error calling search: boom", Option.none, some "a"⟩ :
             ResearchCore.Msg)] 1 10).2.2) := by
  intro env
  constructor
  · exact claim_C7_tool_error_not_fatal.1 env ⟨some "a", "search", "\x7b\x7d"⟩ [] [] 0
      PyVal.none [("error", PyVal.str "boom")] (PyVal.str "boom") rfl rfl rfl
  · exact claim_C7_tool_error_not_fatal.2 env [] 0 9 _ _ 1 (by omega) (by decide)

/-- **C8**: the tool-calling loop performs at most 10 model-turn iterations
per run regardless of model behaviour; and when every iteration up to the
cap requests tools (so no tool-call-free turn occurs and nothing raises),
the run performs exactly 10 turns and simply stops: no error frame is
emitted and the trace ends with the Done sentinel. -/
theorem claim_C8_iteration_cap :
    (∀ (env : ResearchCore.REnv) (messages : List ResearchCore.Msg),
      ResearchCore.modelTurns (ResearchCore.research_chat env messages) ≤ 10) ∧
    (∀ (env : ResearchCore.REnv) (messages : List ResearchCore.Msg),
      (∀ k (conv : List ResearchCore.Msg) (ctr : Nat), 1 ≤ k → k ≤ 10 →
        ∃ evts conv' ctr', ResearchCore.runIter env conv ctr k =
          ResearchCore.IterOut.continued evts conv' ctr') →
      ResearchCore.modelTurns (ResearchCore.research_chat env messages) = 10 ∧
      (ResearchCore.research_chat env messages).countP ResearchCore.REvent.isErr = 0 ∧
      (ResearchCore.research_chat env messages).getLast? =
        some ResearchCore.REvent.done ∧
      ResearchCore.encodeREvent ResearchCore.REvent.done = "data: [DONE]\n\n") := by
  constructor
  · intro env messages
    have h := ResearchCore.researchLoopRun_counts env 10 0 (by omega)
      ((⟨"system", some env.systemContent, Option.none, Option.none⟩ :
        ResearchCore.Msg) :: messages) 0
    rw [ResearchCore.modelTurns, ResearchCore.research_chat_eq]
    rcases (ResearchCore.researchLoopRun env
        ((⟨"system", some env.systemContent, Option.none, Option.none⟩ :
          ResearchCore.Msg) :: messages) 0 0).2.2 with m | m <;>
      · simp only [List.countP_cons, List.countP_append]
        simp
        omega
  · intro env messages hcont
    have hcap := ResearchCore.researchLoopRun_cap env hcont 10 0 (by omega)
      ((⟨"system", some env.systemContent, Option.none, Option.none⟩ :
        ResearchCore.Msg) :: messages) 0
    have herr := ResearchCore.researchLoopRun_counts env 10 0 (by omega)
      ((⟨"system", some env.systemContent, Option.none, Option.none⟩ :
        ResearchCore.Msg) :: messages) 0
    refine ⟨?_, ?_, ?_, rfl⟩
    · rw [ResearchCore.modelTurns, ResearchCore.research_chat_eq, hcap.2]
      simp only [List.countP_cons, List.countP_append]
      simp
      omega
    · rw [ResearchCore.research_chat_eq, hcap.2]
      simp only [List.countP_cons, List.countP_append]
      simp [herr.2]
    · rw [ResearchCore.research_chat_eq, hcap.2]
      exact getLast?_cons_append _ _ _ _ rfl

/-- Witness for C8: with an environment whose every streaming turn requests
one tool call (and the tool returns an error payload, which is not fatal),
the run performs exactly 10 model turns, emits no error frame, and ends with
the Done sentinel. -/
theorem claim_C8_witness :
    let env : ResearchCore.REnv :=
      { systemContent := "sys"
        streamAt := fun _ =>
          ([⟨Option.none, [⟨some 0, some "a", some ⟨some "search", some "\x7b\x7d"⟩⟩],
            Option.none⟩], Option.none)
        jsonLoads := fun _ => Except.ok PyVal.none
        toolResult := fun _ => some (PyVal.dict [("error", PyVal.str "boom")]) }
    ResearchCore.modelTurns (ResearchCore.research_chat env []) = 10 ∧
    (ResearchCore.research_chat env []).countP ResearchCore.REvent.isErr = 0 ∧
    (ResearchCore.research_chat env []).getLast? = some ResearchCore.REvent.done := by
  intro env
  have h := claim_C8_iteration_cap.2 env []
    (fun k conv ctr _ _ => ⟨_, _, _, rfl⟩)
  exact ⟨h.1, h.2.1, h.2.2.1⟩

/-- **C10**: the MCP tool-bridge request handler is total: every request
gets a JSON-RPC response whose `id` equals the request's `id` (and which
carries a `result` or an `error`); an unknown method or unknown tool name
yields error code `-32601`, a missing API key yields `-32000`, and an
internal exception is converted into a `-32000` error response carrying the
exception's message. -/
theorem claim_C10_mcp_handler_total :
    ∀ (env : McpRoutes.MCPEnv) (req : McpRoutes.MCPRequest),
      (McpRoutes.handle_request env req).id = req.id ∧
      ((McpRoutes.handle_request env req).result.isSome ∨
        (McpRoutes.handle_request env req).error.isSome) ∧
      (req.method ≠ "initialize" → req.method ≠ "tools/list" →
        req.method ≠ "tools/call" →
        (McpRoutes.handle_request env req).error =
          some ⟨-32601, "Unknown method: " ++ req.method⟩) ∧
      (req.method = "tools/call" → env.serperConfigured = false →
        (McpRoutes.handle_request env req).error =
          some ⟨-32000, "SERPER_API_KEY not configured"⟩) ∧
      (req.method = "tools/call" → env.serperConfigured = true →
        ∀ params n, req.params = some params →
          params.lookup "name" = some (PyVal.str n) →
          n ≠ "google_search" → n ≠ "scrape" →
          (McpRoutes.handle_request env req).error =
            some ⟨-32601, "Unknown tool: " ++ n⟩) ∧
      (req.method = "tools/call" → env.serperConfigured = true →
        ∀ params m, req.params = some params →
          params.lookup "name" = some (PyVal.str "google_search") →
          env.doSearch ((params.lookup "arguments").getD (PyVal.dict [])) =
            Except.error m →
          (McpRoutes.handle_request env req).error = some ⟨-32000, m⟩) := by
  intro env req
  refine ⟨?_, ?_, ?_, ?_, ?_, ?_⟩
  · unfold McpRoutes.handle_request
    repeat' first | split | (dsimp only)
  · unfold McpRoutes.handle_request
    (repeat' first | split | (dsimp only)) <;> simp
  · intro h1 h2 h3
    unfold McpRoutes.handle_request
    rw [if_neg h1, if_neg h2, if_neg h3]
  · intro hm hc
    simp [McpRoutes.handle_request, hm, hc]
  · intro hm hcfg params n hp hn hgs hscr
    simp [McpRoutes.handle_request, hm, hcfg, hp, hn, McpRoutes.optValIsStr,
      hgs, hscr, pyStrOpt, pyStr]
  · intro hm hcfg params m hp hn hsearch
    simp [McpRoutes.handle_request, hm, hcfg, hp, hn, McpRoutes.optValIsStr, hsearch]

/-- Witness for C10: an unknown method, an unknown tool, and a raising
search call each produce the documented error response with the request's
id. -/
theorem claim_C10_witness :
    let env : McpRoutes.MCPEnv :=
      { serperConfigured := true
        doSearch := fun _ => Except.error "down"
        doScrape := fun _ => Except.ok PyVal.none }
    (McpRoutes.handle_request env ⟨"2.0", some "1", "nope", Option.none⟩).error =
      some ⟨-32601, "Unknown method: nope"⟩ ∧
    (McpRoutes.handle_request env
        ⟨"2.0", some "2", "tools/call", some [("name", PyVal.str "mystery")]⟩).error =
      some ⟨-32601, "Unknown tool: mystery"⟩ ∧
    (McpRoutes.handle_request env
        ⟨"2.0", some "3", "tools/call", some [("name", PyVal.str "google_search")]⟩).error =
      some ⟨-32000, "down"⟩ := by
  intro env
  refine ⟨?_, ?_, ?_⟩
  · exact (claim_C10_mcp_handler_total env _).2.2.1 (by decide) (by decide) (by decide)
  · exact (claim_C10_mcp_handler_total env _).2.2.2.2.1 rfl rfl
      [("name", PyVal.str "mystery")] "mystery" rfl rfl (by decide) (by decide)
  · exact (claim_C10_mcp_handler_total env _).2.2.2.2.2 rfl rfl
      [("name", PyVal.str "google_search")] "down" rfl rfl rfl

/-- Witness for C9: a null-index delta on a concrete list, and a delta at
index 2 on the empty list (placeholder at position 1, length 3). -/
theorem claim_C9_witness :
    ResearchCore.applyToolCallDelta []
      ⟨Option.none, some "ig", some ⟨some "nored", Option.none⟩⟩ = ([] : List ResearchCore.ToolCallAcc) ∧
    (ResearchCore.applyToolCallDelta [] ⟨some 2, some "x", Option.none⟩).length = max 0 3 ∧
    (ResearchCore.applyToolCallDelta [] ⟨some 2, some "x", Option.none⟩)[1]? =
      some ResearchCore.placeholderCall :=
  ⟨claim_C9_null_index_and_padding.1 [] _ rfl,
   (claim_C9_null_index_and_padding.2 [] ⟨some 2, some "x", Option.none⟩ 2 rfl).1,
   (claim_C9_null_index_and_padding.2 [] ⟨some 2, some "x", Option.none⟩ 2 rfl).2.2.1 1
     (by decide) (by decide)⟩

end JanServer
